import Mathlib

/-!
Verification development for the MurmurStack real-time audio transcription
server.  The Python sources are shallowly embedded: the per-client buffering
and flush-decision engine of `backend/src/server.py` (class
`ConnectionManager` and the websocket endpoint), the word-streaming logic of
`backend/src/transcription.py`, and the authentication gate of
`murmur-server/server.py`.

Modelling conventions:
* audio samples are rationals (the float32 PCM values; exact arithmetic
  stands in for IEEE floats, whose rounding plays no role in the claims
  checked here),
* Python dicts keyed by client id are association lists with
  first-occurrence lookup; every state built by the embedded operations has
  distinct keys, and deletion removes every occurrence so that it agrees
  with Python `del` on such states,
* `datetime.now()` is an explicit rational-valued `now` parameter,
* the external collaborators (Silero VAD, noisereduce, the OpenAI API call)
  are function parameters returning `Except`, an exception being modelled as
  the `.error` case,
* the `DEBUG_MODE` branches of the source (disabled unless the environment
  sets `DEBUG_MODE=true`) only write wav files and keep shadow recordings;
  they do not touch the buffering, metrics or messaging state and are not
  modelled.
-/

namespace Murmur

/-- First-occurrence lookup in an association list (Python `d[k]` / `k in d`). -/
def lookupKey {β : Type} : List (String × β) → String → Option β
  | [], _ => none
  | (k', v) :: rest, k => if k' = k then some v else lookupKey rest k

/-- Update-or-insert (Python `d[k] = v`). -/
def setKey {β : Type} : List (String × β) → String → β → List (String × β)
  | [], k, v => [(k, v)]
  | (k', v') :: rest, k, v =>
    if k' = k then (k, v) :: rest else (k', v') :: setKey rest k v

/-- Deletion (Python `del d[k]`); removes every binding of `k`, which on the
states built by the embedded operations (distinct keys) coincides with
deleting the unique binding. -/
def delKey {β : Type} : List (String × β) → String → List (String × β)
  | [], _ => []
  | (k', v') :: rest, k =>
    if k' = k then delKey rest k else (k', v') :: delKey rest k

theorem lookupKey_setKey_self {β : Type} (m : List (String × β)) (k : String) (v : β) :
    lookupKey (setKey m k v) k = some v := by
  induction m with
  | nil => simp [setKey, lookupKey]
  | cons p rest ih =>
    by_cases h : p.1 = k
    · simp [setKey, lookupKey, h]
    · simp [setKey, lookupKey, h, ih]

theorem lookupKey_setKey_ne {β : Type} (m : List (String × β)) {k k' : String} (v : β)
    (h : k' ≠ k) : lookupKey (setKey m k v) k' = lookupKey m k' := by
  have hk : ¬k = k' := Ne.symm h
  induction m with
  | nil => simp [setKey, lookupKey, hk]
  | cons p rest ih =>
    by_cases hp : p.1 = k
    · have hp' : ¬p.1 = k' := by rw [hp]; exact hk
      simp [setKey, lookupKey, hp, hp', hk]
    · by_cases hp' : p.1 = k'
      · simp [setKey, lookupKey, hp, hp', h]
      · simp [setKey, lookupKey, hp, hp', ih]

theorem lookupKey_delKey_self {β : Type} (m : List (String × β)) (k : String) :
    lookupKey (delKey m k) k = none := by
  induction m with
  | nil => simp [delKey, lookupKey]
  | cons p rest ih =>
    by_cases h : p.1 = k
    · simp [delKey, h, ih]
    · simp [delKey, lookupKey, h, ih]

theorem lookupKey_delKey_ne {β : Type} (m : List (String × β)) {k k' : String}
    (h : k' ≠ k) : lookupKey (delKey m k) k' = lookupKey m k' := by
  have hk : ¬k = k' := Ne.symm h
  induction m with
  | nil => simp [delKey, lookupKey]
  | cons p rest ih =>
    by_cases hp : p.1 = k
    · have hp' : ¬p.1 = k' := by rw [hp]; exact hk
      simp [delKey, lookupKey, hp, hp', hk, ih]
    · by_cases hp' : p.1 = k'
      · simp [delKey, lookupKey, hp, hp', h]
      · simp [delKey, lookupKey, hp, hp', ih]

/-- One audio fragment: a mono float32 PCM chunk, as a list of samples. -/
abbrev Fragment := List ℚ

/-- `self.sample_rate = 16000` in `ConnectionManager.__init__`. -/
def SAMPLE_RATE : ℕ := 16000

/-- `BUFFER_MAX_SECONDS = 5.0` in `backend/src/server.py`. -/
def BUFFER_MAX_SECONDS : ℚ := 5

/-- `BUFFER_MIN_SECONDS = 1.5` in `backend/src/server.py`. -/
def BUFFER_MIN_SECONDS : ℚ := 3 / 2

/-- `self.silence_threshold = 0.01` (RMS threshold). -/
def silence_threshold : ℚ := 1 / 100

/-- One entry of `self.audio_metrics[client_id]`. -/
structure MetricsEntry where
  total_audio_seconds : ℚ
  processed_audio_seconds : ℚ
  session_start_time : ℚ
  deriving DecidableEq, Repr

/-- The mutable state of `ConnectionManager`: `active_connections` (the
websocket handle is modelled as `Unit`), `audio_buffers`, `buffer_sizes`
and `audio_metrics`.  The debug-only `complete_recordings` and
`transcription_audio` dicts are not modelled (see the module docstring). -/
structure ConnState where
  active_connections : List (String × Unit)
  audio_buffers : List (String × List Fragment)
  buffer_sizes : List (String × ℕ)
  audio_metrics : List (String × MetricsEntry)
  deriving DecidableEq, Repr

/-- The state of a freshly constructed `ConnectionManager`. -/
def initState : ConnState := ⟨[], [], [], []⟩

/-- Python `client_id in self.active_connections`. -/
def is_active (s : ConnState) (cid : String) : Bool :=
  (lookupKey s.active_connections cid).isSome

/-- `ConnectionManager.connect`: accept the websocket, register it, create an
empty buffer and zeroed metrics with `session_start_time = now`. -/
def connect (s : ConnState) (cid : String) (now : ℚ) : ConnState :=
  { s with
    active_connections := setKey s.active_connections cid ()
    audio_buffers := setKey s.audio_buffers cid []
    buffer_sizes := setKey s.buffer_sizes cid 0
    audio_metrics := setKey s.audio_metrics cid ⟨0, 0, now⟩ }

/-- `ConnectionManager.disconnect`: drop the connection handle and the two
buffer dict entries.  Note that `audio_metrics` is intentionally left
untouched by the source (the `clear_metrics` call in the `/metrics` endpoint
is commented out and `disconnect` never touches `self.audio_metrics`). -/
def disconnect (s : ConnState) (cid : String) : ConnState :=
  if is_active s cid then
    { s with
      active_connections := delKey s.active_connections cid
      audio_buffers := delKey s.audio_buffers cid
      buffer_sizes := delKey s.buffer_sizes cid }
  else s

/-- `ConnectionManager.clear_metrics` (defined in the source but its only
call site is commented out). -/
def clear_metrics (s : ConnState) (cid : String) : ConnState :=
  { s with audio_metrics := delKey s.audio_metrics cid }

/-- `ConnectionManager.get_buffer_duration`: tracked samples / sample rate,
0 for an unknown client. -/
def get_buffer_duration (s : ConnState) (cid : String) : ℚ :=
  match lookupKey s.buffer_sizes cid with
  | some n => (n : ℚ) / (SAMPLE_RATE : ℚ)
  | none => 0

/-- `ConnectionManager.add_to_buffer`: create the per-client entry if absent,
append the fragment, add its sample count to `buffer_sizes`.  (On states
where `audio_buffers` has the key but `buffer_sizes` does not — unreachable
through the embedded operations, and a `KeyError` in Python — the missing
count is read as 0.) -/
def add_to_buffer (s : ConnState) (cid : String) (frag : Fragment) : ConnState :=
  let s0 :=
    if (lookupKey s.audio_buffers cid).isNone then
      { s with
        audio_buffers := setKey s.audio_buffers cid []
        buffer_sizes := setKey s.buffer_sizes cid 0 }
    else s
  { s0 with
    audio_buffers :=
      setKey s0.audio_buffers cid (((lookupKey s0.audio_buffers cid).getD []) ++ [frag])
    buffer_sizes :=
      setKey s0.buffer_sizes cid (((lookupKey s0.buffer_sizes cid).getD 0) + frag.length) }

/-- Sum of squared samples (the numerator of `torch.mean(end_segment**2)`). -/
def sumSq (l : List ℚ) : ℚ := (l.map fun x => x * x).sum

/-- The last `k` samples of a fragment (`audio_tensor[-k:]` for `0 < k ≤ len`). -/
def tail_segment (frag : Fragment) (k : ℕ) : Fragment := frag.drop (frag.length - k)

/-- `ConnectionManager.should_process_buffer`.  The source compares
`rms = torch.sqrt(torch.mean(end_segment**2))` against `silence_threshold`;
since both sides are nonnegative this is equivalent to comparing the mean
square against the squared threshold, which keeps the definition inside ℚ.
(The equivalence with the square-root form is proved in
`mean_square_lt_iff_sqrt_lt` below.) -/
def should_process_buffer (s : ConnState) (cid : String) (frag : Fragment) : Bool :=
  let buffer_duration := get_buffer_duration s cid
  if BUFFER_MAX_SECONDS ≤ buffer_duration then true
  else if BUFFER_MIN_SECONDS ≤ buffer_duration then
    let samples_to_check := min (SAMPLE_RATE / 5) frag.length
    if 0 < samples_to_check then
      decide (sumSq (tail_segment frag samples_to_check) / (samples_to_check : ℚ) <
        silence_threshold ^ 2)
    else false
  else false

/-- `ConnectionManager.get_buffer_content`: concatenate and clear; an unknown
client or an empty fragment list yields the empty tensor with no state
change. -/
def get_buffer_content (s : ConnState) (cid : String) : Fragment × ConnState :=
  match lookupKey s.audio_buffers cid with
  | none => ([], s)
  | some [] => ([], s)
  | some bufs =>
    (bufs.flatten,
      { s with
        audio_buffers := setKey s.audio_buffers cid []
        buffer_sizes := setKey s.buffer_sizes cid 0 })

/-- The JSON structure returned by `get_optimization_metrics` / the
`/metrics/{client_id}` endpoint. -/
structure MetricsOut where
  total_audio_seconds : ℚ
  processed_audio_seconds : ℚ
  optimization_percentage : ℚ
  seconds_saved : ℚ
  session_duration : ℚ
  deriving DecidableEq, Repr

/-- Round-half-to-even to an integer, the tie rule of Python `round`. -/
def roundHalfEven (x : ℚ) : ℤ :=
  if x - ⌊x⌋ < 1 / 2 then ⌊x⌋
  else if 1 / 2 < x - ⌊x⌋ then ⌊x⌋ + 1
  else if ⌊x⌋ % 2 = 0 then ⌊x⌋ else ⌊x⌋ + 1

/-- Python `round(x, 2)` on exact values (the binary-float representation
step of CPython's `round` is not modelled; no claim here depends on it). -/
def pyRound2 (x : ℚ) : ℚ := (roundHalfEven (100 * x) : ℚ) / 100

/-- `ConnectionManager.get_optimization_metrics`: zeroed structure for an
unknown client, otherwise the percentage/saved formulas with every field
passed through `round(_, 2)` and `session_duration = now - session_start_time`. -/
def get_optimization_metrics (s : ConnState) (cid : String) (now : ℚ) : MetricsOut :=
  match lookupKey s.audio_metrics cid with
  | none => ⟨0, 0, 0, 0, 0⟩
  | some m =>
    let total_seconds := m.total_audio_seconds
    let processed_seconds := m.processed_audio_seconds
    let seconds_saved := if 0 < total_seconds then total_seconds - processed_seconds else 0
    let optimization_percentage :=
      if 0 < total_seconds then seconds_saved / total_seconds * 100 else 0
    let session_duration := now - m.session_start_time
    ⟨pyRound2 total_seconds, pyRound2 processed_seconds,
      pyRound2 optimization_percentage, pyRound2 seconds_saved, pyRound2 session_duration⟩

/-- One item yielded by `OpenAITranscriber.transcribe_audio_tensor`:
either a success chunk with its `is_final` flag or an error chunk. -/
inductive Chunk where
  | ok (text : String) (is_final : Bool)
  | err (message : String)
  deriving DecidableEq, Repr

/-- Whitespace test of Python `str.split()` (the common whitespace
characters; the exotic Unicode spaces Python also strips play no role in
the claims). -/
def isPySpace (c : Char) : Bool :=
  c == ' ' || c == '\t' || c == '\n' || c == '\r'

/-- Python `transcription.split()`: split on whitespace, dropping empty
pieces, so that a string with no words yields `[]`. -/
def pySplit (t : String) : List String :=
  (t.split isPySpace).filter fun w => w ≠ ""

/-- `OpenAITranscriber.transcribe_audio_tensor` as the list of chunks the
async generator yields.  The OpenAI call (and the wav round-trip feeding
it) is the collaborator `api`; an exception anywhere inside the `try` is
its `.error` case and becomes a single error chunk, exactly as the
generator's `except` clause yields one.  An empty tensor yields the
`"Empty audio tensor"` error chunk before the `try`.  Otherwise the text is
split into words and streamed one word per chunk, `is_final` marking
`i + chunk_size >= len(words)`. -/
def transcribe_audio_tensor (api : Fragment → Except String String)
    (audio : Fragment) : List Chunk :=
  if audio.length = 0 then [Chunk.err "Empty audio tensor"]
  else
    match api audio with
    | .error e => [Chunk.err e]
    | .ok transcription =>
      let words := pySplit transcription
      words.enum.map fun p => Chunk.ok p.2 (decide (words.length ≤ p.1 + 1))

/-- A JSON message sent to the client over the websocket. -/
inductive Msg where
  | success (transcription : String) (is_final : Bool)
  | no_voice_detected
  | error (message : String)
  deriving DecidableEq, Repr

/-- `ConnectionManager.send_message`: the message reaches the client only
if the id is still in `active_connections`. -/
def send_message (s : ConnState) (cid : String) (m : Msg) : List Msg :=
  if is_active s cid then [m] else []

/-- The external collaborators of the pipeline (see spec §1):
Silero VAD, noisereduce, and the OpenAI transcription call.  A raised
exception is the `.error` case. -/
structure Collaborators where
  vad : Fragment → Except String Fragment
  noise : Fragment → Except String Fragment
  api : Fragment → Except String String

/-- `self.audio_metrics[client_id]["total_audio_seconds"] += d`, guarded by
`if client_id in self.audio_metrics`. -/
def bump_total (s : ConnState) (cid : String) (d : ℚ) : ConnState :=
  match lookupKey s.audio_metrics cid with
  | none => s
  | some m =>
    { s with
      audio_metrics := setKey s.audio_metrics cid
        { m with total_audio_seconds := m.total_audio_seconds + d } }

/-- `self.audio_metrics[client_id]["processed_audio_seconds"] += d`, guarded
by `if client_id in self.audio_metrics`. -/
def bump_processed (s : ConnState) (cid : String) (d : ℚ) : ConnState :=
  match lookupKey s.audio_metrics cid with
  | none => s
  | some m =>
    { s with
      audio_metrics := setKey s.audio_metrics cid
        { m with processed_audio_seconds := m.processed_audio_seconds + d } }

/-- The `async for` loop over the transcription generator in
`process_audio_chunk`: an error chunk is forwarded and ends the flush, a
success chunk is forwarded as `{status: success, transcription, is_final}`,
and the loop stops after the final-flagged chunk. -/
def emit_chunks (s : ConnState) (cid : String) : List Chunk → List Msg
  | [] => []
  | Chunk.err e :: _ => send_message s cid (Msg.error e)
  | Chunk.ok t fin :: rest =>
    send_message s cid (Msg.success t fin) ++ if fin then [] else emit_chunks s cid rest

/-- `ConnectionManager.process_audio_chunk`.  `decoded` is the result of
`np.frombuffer` on the received bytes (`.error` when that raises, e.g. on a
length not divisible by 4); the surrounding `try` turns any raised
exception into one `{status: error, message}` emission.  Returns the new
state and the messages sent to this client. -/
def process_audio_chunk (cfg : Collaborators) (s : ConnState) (cid : String)
    (decoded : Except String Fragment) : ConnState × List Msg :=
  match decoded with
  | .error e => (s, send_message s cid (Msg.error e))
  | .ok audio =>
    if audio.length < 100 then (s, [])
    else
      let s1 := add_to_buffer s cid audio
      if ¬should_process_buffer s1 cid audio then (s1, [])
      else
        let drained := get_buffer_content s1 cid
        let buffered := drained.1
        let s2 := drained.2
        let buffer_duration := (buffered.length : ℚ) / (SAMPLE_RATE : ℚ)
        let s3 := bump_total s2 cid buffer_duration
        match cfg.vad buffered with
        | .error e => (s3, send_message s3 cid (Msg.error e))
        | .ok voice =>
          if voice.length = 0 then (s3, send_message s3 cid Msg.no_voice_detected)
          else
            match cfg.noise voice with
            | .error e => (s3, send_message s3 cid (Msg.error e))
            | .ok denoised =>
              let s4 := bump_processed s3 cid ((denoised.length : ℚ) / (SAMPLE_RATE : ℚ))
              (s4, emit_chunks s4 cid (transcribe_audio_tensor cfg.api denoised))

/-- The receive loop of `websocket_endpoint`: each received frame is fully
handled by `process_audio_chunk` before the next is read; the handler never
raises (its `try` catches everything), so the loop runs on through error
frames until the transport disconnects (here: until the frame list ends). -/
def ws_loop (cfg : Collaborators) (s : ConnState) (cid : String) :
    List (Except String Fragment) → ConnState × List Msg
  | [] => (s, [])
  | d :: rest =>
    let pr := process_audio_chunk cfg s cid d
    let tl := ws_loop cfg pr.1 cid rest
    (tl.1, pr.2 ++ tl.2)

/-- Websocket handshake states of the transport (Starlette/ASGI semantics):
a connection starts unaccepted; `close` before `accept` rejects the
handshake with the given code; `accept` is only legal on an unaccepted,
unclosed connection and raises otherwise. -/
inductive WsStatus where
  | initial
  | accepted
  | closed
  deriving DecidableEq, Repr

/-- The transport-visible side of one murmur-server connection. -/
structure Ws where
  status : WsStatus
  closeCode : Option ℕ
  deriving DecidableEq, Repr

/-- `await ws.close(code)`. -/
def ws_close (w : Ws) (code : ℕ) : Ws :=
  { w with status := WsStatus.closed, closeCode := some code }

/-- `await ws.accept()`: raises (modelled as `.error`) once a close has
already been sent. -/
def ws_accept (w : Ws) : Except String Ws :=
  match w.status with
  | WsStatus.initial => Except.ok { w with status := WsStatus.accepted }
  | _ => Except.error "cannot accept: close message already sent"

/-- Python truthiness of the credential-store result (`if not user_id`):
absent, or present but empty. -/
def falsy_uid (uid : Option String) : Bool :=
  match uid with
  | none => true
  | some u => u = ""

/-- What the `murmur-server` `root` websocket handler observably did. -/
structure RootOutcome where
  ws : Ws
  sessionCreated : Bool
  framesProcessed : ℕ
  deriving DecidableEq, Repr

/-- The connection-setup phase of `murmur-server/server.py` `root`
(lines 81–96).  `auth` is the credential store
(`redis.get` keyed by the sha256 of the api key; the hashing is absorbed
into the collaborator).  When the lookup is falsy the handler closes with
code 1008 and — the source lacking a `return` — still reaches
`await ws.accept()`, which raises on the already-closed connection and
aborts the handler before the buffer is created or any frame is read.
When the lookup succeeds the handler accepts, creates the buffer `buff`
and enters the receive loop, handling one frame per iteration; the loop
body (flush, usage accounting, VAD, transcription) is irrelevant to the
authentication claim and is summarised by the number of frames handled. -/
def murmur_root (auth : String → Option String) (api_key : String)
    (frames : List Fragment) : RootOutcome :=
  let uid := auth api_key
  let w0 : Ws := { status := WsStatus.initial, closeCode := none }
  let w1 := if falsy_uid uid then ws_close w0 1008 else w0
  match ws_accept w1 with
  | .error _ => { ws := w1, sessionCreated := false, framesProcessed := 0 }
  | .ok w2 => { ws := w2, sessionCreated := true, framesProcessed := frames.length }

/-- Modelled from the spec: `murmur-server/server.py` reads `BUFFER_MAX_S`,
`BUFFER_MIN_S` and `SILENCE_THRESHOLD_RMS` from `env.py`, which is not under
src/; the spec's defaults (§4.3: 5.0 s and 1.5 s; §4.1: RMS threshold 0.01;
§6 fixes the sample rate at 16000 Hz, the `SAMPLE_RATE` constant above) are
used for them. -/
def BUFFER_MAX_S : ℚ := 5

/-- Modelled from the spec: see `BUFFER_MAX_S`. -/
def BUFFER_MIN_S : ℚ := 3 / 2

/-- Modelled from the spec: see `BUFFER_MAX_S`. -/
def SILENCE_THRESHOLD_RMS : ℚ := 1 / 100

/-- `murmur-server` `get_buffer_duration_s`:
`sum(tensor.numel() for tensor in buff) / SAMPLE_RATE`. -/
def murmur_buffer_duration (buff : List Fragment) : ℚ :=
  (((buff.map List.length).sum : ℕ) : ℚ) / (SAMPLE_RATE : ℚ)

/-- `murmur-server` `should_flush`.  As in the backend, the source compares
`rms = torch.sqrt(torch.mean(sample**2))` with the threshold; the embedding
compares the mean square with the squared threshold (see
`mean_square_lt_iff_sqrt_lt`).  `buff[-1]` is the last appended fragment
(the loop calls this right after an append, so `buff` is non-empty); with
`sample_size = 0` the Python slice `[-0:]` is the whole (then empty) last
fragment, whose mean is nan and compares false. -/
def murmur_should_flush (buff : List Fragment) : Bool :=
  let duration := murmur_buffer_duration buff
  if BUFFER_MAX_S ≤ duration then true
  else if BUFFER_MIN_S ≤ duration then
    let lastFrag := buff.getLast?.getD []
    let sample_size := min (SAMPLE_RATE / 5) lastFrag.length
    let sample := if sample_size = 0 then lastFrag else tail_segment lastFrag sample_size
    if sample.length = 0 then false
    else decide (sumSq sample / (sample.length : ℚ) < SILENCE_THRESHOLD_RMS ^ 2)
  else false

/-- The receive loop of the `murmur-server` `root` handler after a
successful accept, with the VAD/transcription collaborators abstracted
away: each frame is appended to `buff`; when `should_flush` holds, the
usage counter is incremented by the whole buffer's duration and
`torch.cat(buff)` is handed to the pipeline — and `buff` is NOT cleared
(the source has no `buff = []` after a flush).  Returns the final `buff`
and, per flush in order, the concatenated audio handed on together with the
billed duration. -/
def murmur_loop (buff : List Fragment) :
    List Fragment → List Fragment × List (Fragment × ℚ)
  | [] => (buff, [])
  | f :: rest =>
    let buff2 := buff ++ [f]
    if murmur_should_flush buff2 then
      let tl := murmur_loop buff2 rest
      (tl.1, (buff2.flatten, murmur_buffer_duration buff2) :: tl.2)
    else
      let tl := murmur_loop buff2 rest
      (tl.1, tl.2)

/-- The bookkeeping invariant of one client's buffer entry:
`buffer_sizes[cid]` is exactly the total sample count of the fragments held
in `audio_buffers[cid]` (and the two dicts agree on whether `cid` is
present). -/
def entry_consistent (s : ConnState) (cid : String) : Prop :=
  lookupKey s.buffer_sizes cid =
    (lookupKey s.audio_buffers cid).map fun bs => (bs.map List.length).sum

/-- The bookkeeping invariant for every client id. -/
def Consistent (s : ConnState) : Prop := ∀ cid, entry_consistent s cid

instance (s : ConnState) (cid : String) : Decidable (entry_consistent s cid) := by
  unfold entry_consistent; infer_instance

theorem sumSq_cons (x : ℚ) (l : List ℚ) : sumSq (x :: l) = x * x + sumSq l := by
  simp [sumSq]

theorem sumSq_replicate (n : ℕ) (x : ℚ) : sumSq (List.replicate n x) = n * (x * x) := by
  induction n with
  | zero => simp [sumSq]
  | succ k ih => simp [List.replicate_succ, sumSq_cons, ih]; ring

theorem pySplit_empty : pySplit "" = [] := by
  unfold pySplit
  rw [String.split_of_valid]
  rfl

theorem add_to_buffer_metrics (s : ConnState) (cid : String) (f : Fragment) :
    (add_to_buffer s cid f).audio_metrics = s.audio_metrics := by
  unfold add_to_buffer
  by_cases h : (lookupKey s.audio_buffers cid).isNone <;> simp [h]

theorem add_to_buffer_active (s : ConnState) (cid : String) (f : Fragment) :
    (add_to_buffer s cid f).active_connections = s.active_connections := by
  unfold add_to_buffer
  by_cases h : (lookupKey s.audio_buffers cid).isNone <;> simp [h]

theorem lookup_add_to_buffer_self (s : ConnState) (cid : String) (f : Fragment) :
    lookupKey (add_to_buffer s cid f).audio_buffers cid =
      some (((lookupKey s.audio_buffers cid).getD []) ++ [f]) := by
  unfold add_to_buffer
  by_cases h : (lookupKey s.audio_buffers cid).isNone
  · rw [Option.isNone_iff_eq_none] at h
    simp [h, lookupKey_setKey_self]
  · simp [h, lookupKey_setKey_self]

theorem drain_metrics (s : ConnState) (cid : String) :
    ((get_buffer_content s cid).2).audio_metrics = s.audio_metrics := by
  unfold get_buffer_content
  cases hb : lookupKey s.audio_buffers cid with
  | none => rfl
  | some bs => cases bs <;> rfl

theorem drain_active (s : ConnState) (cid : String) :
    ((get_buffer_content s cid).2).active_connections = s.active_connections := by
  unfold get_buffer_content
  cases hb : lookupKey s.audio_buffers cid with
  | none => rfl
  | some bs => cases bs <;> rfl

theorem drain_content_eq (s : ConnState) (cid : String) :
    (get_buffer_content s cid).1 = ((lookupKey s.audio_buffers cid).getD []).flatten := by
  unfold get_buffer_content
  cases hb : lookupKey s.audio_buffers cid with
  | none => rfl
  | some bs => cases bs <;> rfl

theorem drain_unknown (s : ConnState) (cid : String)
    (hb : lookupKey s.audio_buffers cid = none) : get_buffer_content s cid = ([], s) := by
  unfold get_buffer_content; rw [hb]

theorem drain_buffers_self (s : ConnState) (cid : String) (bs : List Fragment)
    (hb : lookupKey s.audio_buffers cid = some bs) (hne : bs ≠ []) :
    lookupKey ((get_buffer_content s cid).2).audio_buffers cid = some [] := by
  unfold get_buffer_content
  rw [hb]
  cases bs with
  | nil => exact absurd rfl hne
  | cons b rest => simp [lookupKey_setKey_self]

theorem drain_duration_zero (s : ConnState) (cid : String) (h : entry_consistent s cid) :
    get_buffer_duration ((get_buffer_content s cid).2) cid = 0 := by
  unfold entry_consistent at h
  unfold get_buffer_content get_buffer_duration
  cases hb : lookupKey s.audio_buffers cid with
  | none => rw [hb] at h; simp [h]
  | some bs =>
    cases bs with
    | nil => rw [hb] at h; simp at h; simp [h]
    | cons b rest => simp [lookupKey_setKey_self]

theorem drain_drain_empty (s : ConnState) (cid : String) :
    (get_buffer_content ((get_buffer_content s cid).2) cid).1 = [] := by
  cases hb : lookupKey s.audio_buffers cid with
  | none =>
    rw [drain_unknown s cid hb]
    simp [drain_content_eq, hb]
  | some bs =>
    cases bs with
    | nil =>
      have : get_buffer_content s cid = ([], s) := by unfold get_buffer_content; rw [hb]
      rw [this]
      simp [drain_content_eq, hb]
    | cons b rest =>
      have hsome := drain_buffers_self s cid (b :: rest) hb (by simp)
      simp [drain_content_eq, hsome]

theorem bump_total_buffers (s : ConnState) (cid : String) (d : ℚ) :
    (bump_total s cid d).audio_buffers = s.audio_buffers := by
  unfold bump_total; cases lookupKey s.audio_metrics cid <;> rfl

theorem bump_total_sizes (s : ConnState) (cid : String) (d : ℚ) :
    (bump_total s cid d).buffer_sizes = s.buffer_sizes := by
  unfold bump_total; cases lookupKey s.audio_metrics cid <;> rfl

theorem bump_total_active (s : ConnState) (cid : String) (d : ℚ) :
    (bump_total s cid d).active_connections = s.active_connections := by
  unfold bump_total; cases lookupKey s.audio_metrics cid <;> rfl

theorem bump_processed_buffers (s : ConnState) (cid : String) (d : ℚ) :
    (bump_processed s cid d).audio_buffers = s.audio_buffers := by
  unfold bump_processed; cases lookupKey s.audio_metrics cid <;> rfl

theorem bump_processed_sizes (s : ConnState) (cid : String) (d : ℚ) :
    (bump_processed s cid d).buffer_sizes = s.buffer_sizes := by
  unfold bump_processed; cases lookupKey s.audio_metrics cid <;> rfl

theorem bump_processed_active (s : ConnState) (cid : String) (d : ℚ) :
    (bump_processed s cid d).active_connections = s.active_connections := by
  unfold bump_processed; cases lookupKey s.audio_metrics cid <;> rfl

theorem bump_total_lookup_self (s : ConnState) (cid : String) (d : ℚ) (m : MetricsEntry)
    (hm : lookupKey s.audio_metrics cid = some m) :
    lookupKey (bump_total s cid d).audio_metrics cid =
      some { m with total_audio_seconds := m.total_audio_seconds + d } := by
  unfold bump_total; rw [hm]; simp [lookupKey_setKey_self]

theorem bump_processed_lookup_self (s : ConnState) (cid : String) (d : ℚ) (m : MetricsEntry)
    (hm : lookupKey s.audio_metrics cid = some m) :
    lookupKey (bump_processed s cid d).audio_metrics cid =
      some { m with processed_audio_seconds := m.processed_audio_seconds + d } := by
  unfold bump_processed; rw [hm]; simp [lookupKey_setKey_self]

theorem consistent_connect (s : ConnState) (cid : String) (now : ℚ)
    (h : Consistent s) : Consistent (connect s cid now) := by
  intro c
  unfold entry_consistent connect
  by_cases hc : c = cid
  · subst hc; simp [lookupKey_setKey_self]
  · simp only [lookupKey_setKey_ne _ _ hc]
    exact h c

theorem consistent_disconnect (s : ConnState) (cid : String)
    (h : Consistent s) : Consistent (disconnect s cid) := by
  intro c
  unfold disconnect
  by_cases ha : is_active s cid
  · simp only [ha, if_true]
    unfold entry_consistent
    by_cases hc : c = cid
    · subst hc; simp [lookupKey_delKey_self]
    · simp only [lookupKey_delKey_ne _ hc]
      exact h c
  · simp only [ha, if_false]
    exact h c

theorem consistent_add_to_buffer (s : ConnState) (cid : String) (f : Fragment)
    (h : Consistent s) : Consistent (add_to_buffer s cid f) := by
  intro c
  unfold entry_consistent add_to_buffer
  by_cases hb : (lookupKey s.audio_buffers cid).isNone
  · rw [Option.isNone_iff_eq_none] at hb
    by_cases hc : c = cid
    · subst hc
      simp [hb, lookupKey_setKey_self]
    · simp only [hb, Option.isNone_none, if_true]
      simp only [lookupKey_setKey_ne _ _ hc]
      exact h c
  · rw [Option.isNone_iff_eq_none] at hb
    rcases Option.ne_none_iff_exists'.mp hb with ⟨l, hl⟩
    by_cases hc : c = cid
    · subst hc
      have hsz := h c
      unfold entry_consistent at hsz
      rw [hl] at hsz
      simp only [Option.isNone_iff_eq_none, hl, if_neg, reduceCtorEq]
      simp [hl, lookupKey_setKey_self, hsz]
    · simp only [Option.isNone_iff_eq_none, hl, if_neg, reduceCtorEq]
      simp only [lookupKey_setKey_ne _ _ hc]
      exact h c

theorem consistent_drain (s : ConnState) (cid : String)
    (h : Consistent s) : Consistent (get_buffer_content s cid).2 := by
  intro c
  unfold entry_consistent get_buffer_content
  cases hb : lookupKey s.audio_buffers cid with
  | none => exact h c
  | some bs =>
    cases bs with
    | nil => exact h c
    | cons b rest =>
      by_cases hc : c = cid
      · subst hc; simp [lookupKey_setKey_self]
      · simp only [lookupKey_setKey_ne _ _ hc]
        exact h c

theorem consistent_bump_total (s : ConnState) (cid : String) (d : ℚ)
    (h : Consistent s) : Consistent (bump_total s cid d) := by
  intro c
  unfold entry_consistent
  rw [bump_total_buffers, bump_total_sizes]
  exact h c

theorem consistent_bump_processed (s : ConnState) (cid : String) (d : ℚ)
    (h : Consistent s) : Consistent (bump_processed s cid d) := by
  intro c
  unfold entry_consistent
  rw [bump_processed_buffers, bump_processed_sizes]
  exact h c

theorem consistent_process_audio_chunk (cfg : Collaborators) (s : ConnState)
    (cid : String) (d : Except String Fragment)
    (h : Consistent s) : Consistent (process_audio_chunk cfg s cid d).1 := by
  unfold process_audio_chunk
  cases d with
  | error e => exact h
  | ok audio =>
    by_cases hl : audio.length < 100
    · simpa [hl] using h
    · simp only [hl, if_false]
      have h1 := consistent_add_to_buffer s cid audio h
      by_cases hf : should_process_buffer (add_to_buffer s cid audio) cid audio
      · simp only [hf, not_true, if_false]
        have h2 := consistent_drain (add_to_buffer s cid audio) cid h1
        have h3 := consistent_bump_total
          ((get_buffer_content (add_to_buffer s cid audio) cid).2) cid
          (((get_buffer_content (add_to_buffer s cid audio) cid).1.length : ℚ) /
            (SAMPLE_RATE : ℚ)) h2
        cases hv : cfg.vad (get_buffer_content (add_to_buffer s cid audio) cid).1 with
        | error e => exact h3
        | ok voice =>
          by_cases hve : voice.length = 0
          · simpa [hve] using h3
          · simp only [hve, if_false]
            cases hn : cfg.noise voice with
            | error e => exact h3
            | ok denoised =>
              exact consistent_bump_processed _ cid _ h3
      · simpa [hf] using h1

/-- The states a `ConnectionManager` can reach: the freshly constructed
manager, closed under connect, disconnect, a raw buffer append, a raw
drain, and a full `process_audio_chunk` invocation (with any collaborator
behaviour and any received frame). -/
inductive Reachable : ConnState → Prop where
  | init : Reachable initState
  | connect : ∀ s cid now, Reachable s → Reachable (connect s cid now)
  | disconnect : ∀ s cid, Reachable s → Reachable (disconnect s cid)
  | append : ∀ s cid frag, Reachable s → Reachable (add_to_buffer s cid frag)
  | drain : ∀ s cid, Reachable s → Reachable (get_buffer_content s cid).2
  | handle : ∀ cfg s cid d, Reachable s → Reachable (process_audio_chunk cfg s cid d).1

theorem consistent_of_reachable {s : ConnState} (h : Reachable s) : Consistent s := by
  induction h with
  | init => intro c; unfold entry_consistent initState; simp [lookupKey]
  | connect s cid now _ ih => exact consistent_connect s cid now ih
  | disconnect s cid _ ih => exact consistent_disconnect s cid ih
  | append s cid frag _ ih => exact consistent_add_to_buffer s cid frag ih
  | drain s cid _ ih => exact consistent_drain s cid ih
  | handle cfg s cid d _ ih => exact consistent_process_audio_chunk cfg s cid d ih

/-- Comparing a mean square against a squared threshold is the same as
comparing the root-mean-square against the threshold, for a positive
threshold: this licenses the ℚ-valued form of the silence test used in
`should_process_buffer` against the source's `sqrt(mean(x**2)) < thr`. -/
theorem mean_square_lt_iff_sqrt_lt (q t : ℚ) (k : ℕ) (ht : 0 < t) :
    (q / (k : ℚ) < t ^ 2) ↔ Real.sqrt ((q : ℝ) / (k : ℝ)) < (t : ℝ) := by
  rw [Real.sqrt_lt' (by exact_mod_cast ht)]
  constructor
  · intro h; exact_mod_cast h
  · intro h; exact_mod_cast h

/-- C1: for every client and every just-appended nonempty fragment, the
flush decision `should_process_buffer` returns true iff the buffered
duration is ≥ `BUFFER_MAX_SECONDS` (5.0 s), or it is ≥ `BUFFER_MIN_SECONDS`
(1.5 s) and the RMS `sqrt(mean(x²))` of the last
`min(0.2·sampleRate, length)` samples of that fragment is strictly below
the threshold 0.01; in particular it is true at or above the max cap
regardless of content, and false below the minimum duration even for an
all-silent fragment. -/
theorem flush_decision_iff (s : ConnState) (cid : String) (frag : Fragment)
    (hfrag : frag ≠ []) :
    (should_process_buffer s cid frag = true ↔
      (BUFFER_MAX_SECONDS ≤ get_buffer_duration s cid ∨
        (BUFFER_MIN_SECONDS ≤ get_buffer_duration s cid ∧
          Real.sqrt ((sumSq (tail_segment frag (min (SAMPLE_RATE / 5) frag.length)) : ℝ) /
              ((min (SAMPLE_RATE / 5) frag.length : ℕ) : ℝ)) <
            (silence_threshold : ℝ)))) ∧
    (BUFFER_MAX_SECONDS ≤ get_buffer_duration s cid →
      should_process_buffer s cid frag = true) ∧
    (get_buffer_duration s cid < BUFFER_MIN_SECONDS →
      should_process_buffer s cid frag = false) := by
  have hlen : 0 < frag.length := List.length_pos.mpr hfrag
  have hk : 0 < min (SAMPLE_RATE / 5) frag.length := by
    have h5 : 0 < SAMPLE_RATE / 5 := by norm_num [SAMPLE_RATE]
    exact lt_min h5 hlen
  have ht : (0 : ℚ) < silence_threshold := by norm_num [silence_threshold]
  have hbridge := mean_square_lt_iff_sqrt_lt
    (sumSq (tail_segment frag (min (SAMPLE_RATE / 5) frag.length)))
    silence_threshold (min (SAMPLE_RATE / 5) frag.length) ht
  refine ⟨?_, ?_, ?_⟩
  · unfold should_process_buffer
    by_cases h1 : BUFFER_MAX_SECONDS ≤ get_buffer_duration s cid
    · simp [h1]
    · by_cases h2 : BUFFER_MIN_SECONDS ≤ get_buffer_duration s cid
      · simp only [h1, h2, hk, if_false, if_true, if_pos, decide_eq_true_eq,
          false_or, true_and, iff_true, not_false_iff]
        exact hbridge
      · simp [h1, h2]
  · intro h1
    unfold should_process_buffer
    simp [h1]
  · intro h3
    have h1 : ¬BUFFER_MAX_SECONDS ≤ get_buffer_duration s cid := by
      intro hc
      have : BUFFER_MIN_SECONDS < BUFFER_MAX_SECONDS := by
        norm_num [BUFFER_MIN_SECONDS, BUFFER_MAX_SECONDS]
      linarith
    have h2 : ¬BUFFER_MIN_SECONDS ≤ get_buffer_duration s cid := not_le.mpr h3
    unfold should_process_buffer
    simp [h1, h2]

/-- Witness for C1 at a concrete nonempty fragment. -/
theorem flush_decision_iff_witness :
    (([1] : Fragment) ≠ []) ∧
    ((should_process_buffer initState "c" [1] = true ↔
      (BUFFER_MAX_SECONDS ≤ get_buffer_duration initState "c" ∨
        (BUFFER_MIN_SECONDS ≤ get_buffer_duration initState "c" ∧
          Real.sqrt ((sumSq (tail_segment [1] (min (SAMPLE_RATE / 5) ([1] : Fragment).length)) : ℝ) /
              ((min (SAMPLE_RATE / 5) ([1] : Fragment).length : ℕ) : ℝ)) <
            (silence_threshold : ℝ)))) ∧
    (BUFFER_MAX_SECONDS ≤ get_buffer_duration initState "c" →
      should_process_buffer initState "c" [1] = true) ∧
    (get_buffer_duration initState "c" < BUFFER_MIN_SECONDS →
      should_process_buffer initState "c" [1] = false)) :=
  ⟨by decide, flush_decision_iff initState "c" [1] (by decide)⟩

/-- Counterexample to C2 as stated: the `murmur-server` variant of the
drain (one of the claim's cited sources) never clears `buff` after a flush.
Two silent 1.5 s frames each trigger a flush; the first flush hands on the
24000 buffered samples, but the second hands on 48000 — the first frame is
re-included (and the billed durations are 1.5 s then 3 s, re-billing it) —
and the buffer still holds 3 s ≠ 0 after both flushes, contradicting
"clears the client's buffer state" and "every appended fragment is included
in at most one drained buffer". -/
theorem murmur_flush_not_cleared_cex :
    ((murmur_loop [] [List.replicate 24000 (0 : ℚ), List.replicate 24000 0]).2.map
      fun p => p.1.length) = [24000, 48000] ∧
    ((murmur_loop [] [List.replicate 24000 (0 : ℚ), List.replicate 24000 0]).2.map
      Prod.snd) = [3 / 2, 3] ∧
    murmur_buffer_duration
      (murmur_loop [] [List.replicate 24000 (0 : ℚ), List.replicate 24000 0]).1 = 3 ∧
    (3 : ℚ) ≠ 0 := by
  have buffdur1 : murmur_buffer_duration [List.replicate 24000 (0 : ℚ)] = 3 / 2 := by
    unfold murmur_buffer_duration
    simp only [List.map_cons, List.map_nil, List.length_replicate, List.sum_cons,
      List.sum_nil, SAMPLE_RATE]
    norm_num
  have buffdur2 : murmur_buffer_duration
      [List.replicate 24000 (0 : ℚ), List.replicate 24000 0] = 3 := by
    unfold murmur_buffer_duration
    simp only [List.map_cons, List.map_nil, List.length_replicate, List.sum_cons,
      List.sum_nil, SAMPLE_RATE]
    norm_num
  have lastfrag1 : ([List.replicate 24000 (0 : ℚ)] : List Fragment).getLast?.getD [] =
      List.replicate 24000 (0 : ℚ) := rfl
  have lastfrag2 : ([List.replicate 24000 (0 : ℚ), List.replicate 24000 0] :
      List Fragment).getLast?.getD [] = List.replicate 24000 (0 : ℚ) := rfl
  have tailseg : tail_segment (List.replicate 24000 (0 : ℚ)) 3200 =
      List.replicate 3200 0 := by
    unfold tail_segment
    simp only [List.length_replicate, List.drop_replicate]
  have hsf1 : murmur_should_flush [List.replicate 24000 (0 : ℚ)] = true := by
    unfold murmur_should_flush
    rw [buffdur1, lastfrag1]
    simp only [List.length_replicate, SAMPLE_RATE]
    norm_num [tailseg, sumSq_replicate, BUFFER_MAX_S, BUFFER_MIN_S, SILENCE_THRESHOLD_RMS]
  have hsf2 : murmur_should_flush
      [List.replicate 24000 (0 : ℚ), List.replicate 24000 0] = true := by
    unfold murmur_should_flush
    rw [buffdur2, lastfrag2]
    simp only [List.length_replicate, SAMPLE_RATE]
    norm_num [tailseg, sumSq_replicate, BUFFER_MAX_S, BUFFER_MIN_S, SILENCE_THRESHOLD_RMS]
  refine ⟨?_, ?_, ?_, by norm_num⟩ <;>
    norm_num [murmur_loop, hsf1, hsf2, buffdur1, buffdur2]

/-- C2 as amended (restricted to the backend's drain,
`ConnectionManager.get_buffer_content` — the murmur-server variant never
clears `buff`, as `murmur_flush_not_cleared_cex` shows): for every client
whose buffer entry is consistent, draining returns the concatenation of the
held fragments in append order, leaves the tracked duration at 0 (so an
immediately repeated drain yields the empty buffer — each appended fragment
reaches at most one drained backend buffer), and draining an empty or
unknown client's buffer returns the empty tensor without error and without
state change. -/
theorem drain_spec (s : ConnState) (cid : String) (h : entry_consistent s cid) :
    (get_buffer_content s cid).1 = ((lookupKey s.audio_buffers cid).getD []).flatten ∧
    get_buffer_duration ((get_buffer_content s cid).2) cid = 0 ∧
    (get_buffer_content ((get_buffer_content s cid).2) cid).1 = [] ∧
    (lookupKey s.audio_buffers cid = none → get_buffer_content s cid = ([], s)) :=
  ⟨drain_content_eq s cid, drain_duration_zero s cid h, drain_drain_empty s cid,
    fun hb => drain_unknown s cid hb⟩

/-- Witness for C2 at a concrete two-fragment buffer. -/
theorem drain_spec_witness :
    entry_consistent ⟨[], [("c", [[1, 2], [3]])], [("c", 3)], []⟩ "c" ∧
    ((get_buffer_content ⟨[], [("c", [[1, 2], [3]])], [("c", 3)], []⟩ "c").1 =
      ((lookupKey (⟨[], [("c", [[1, 2], [3]])], [("c", 3)], []⟩ : ConnState).audio_buffers
        "c").getD []).flatten ∧
    get_buffer_duration
      ((get_buffer_content ⟨[], [("c", [[1, 2], [3]])], [("c", 3)], []⟩ "c").2) "c" = 0 ∧
    (get_buffer_content
      ((get_buffer_content ⟨[], [("c", [[1, 2], [3]])], [("c", 3)], []⟩ "c").2) "c").1 = [] ∧
    (lookupKey (⟨[], [("c", [[1, 2], [3]])], [("c", 3)], []⟩ : ConnState).audio_buffers "c" =
        none →
      get_buffer_content ⟨[], [("c", [[1, 2], [3]])], [("c", 3)], []⟩ "c" =
        ([], ⟨[], [("c", [[1, 2], [3]])], [("c", 3)], []⟩))) :=
  ⟨by decide, drain_spec ⟨[], [("c", [[1, 2], [3]])], [("c", 3)], []⟩ "c" (by decide)⟩

/-- C5: in every reachable `ConnectionManager` state the tracked sample
count `buffer_sizes[cid]` equals the total sample count of the fragments
held in `audio_buffers[cid]` (the two dicts agreeing on presence), so the
duration query returns that sum over the sample rate, 0 for an unknown
client, and 0 immediately after a drain. -/
theorem buffer_size_invariant (s : ConnState) (h : Reachable s) :
    (∀ cid, lookupKey s.buffer_sizes cid =
      (lookupKey s.audio_buffers cid).map fun bs => (bs.map List.length).sum) ∧
    (∀ cid bs, lookupKey s.audio_buffers cid = some bs →
      get_buffer_duration s cid = (((bs.map List.length).sum : ℕ) : ℚ) / (SAMPLE_RATE : ℚ)) ∧
    (∀ cid, lookupKey s.audio_buffers cid = none → get_buffer_duration s cid = 0) ∧
    (∀ cid, get_buffer_duration ((get_buffer_content s cid).2) cid = 0) := by
  have hc := consistent_of_reachable h
  refine ⟨fun cid => hc cid, ?_, ?_, fun cid => drain_duration_zero s cid (hc cid)⟩
  · intro cid bs hb
    have hs := hc cid
    unfold entry_consistent at hs
    rw [hb] at hs
    unfold get_buffer_duration
    rw [hs]
    simp
  · intro cid hb
    have hs := hc cid
    unfold entry_consistent at hs
    rw [hb] at hs
    simp only [Option.map_none'] at hs
    unfold get_buffer_duration
    rw [hs]

/-- Witness for C5 at the initial state. -/
theorem buffer_size_invariant_witness :
    Reachable initState ∧
    ((∀ cid, lookupKey initState.buffer_sizes cid =
      (lookupKey initState.audio_buffers cid).map fun bs => (bs.map List.length).sum) ∧
    (∀ cid bs, lookupKey initState.audio_buffers cid = some bs →
      get_buffer_duration initState cid =
        (((bs.map List.length).sum : ℕ) : ℚ) / (SAMPLE_RATE : ℚ)) ∧
    (∀ cid, lookupKey initState.audio_buffers cid = none →
      get_buffer_duration initState cid = 0) ∧
    (∀ cid, get_buffer_duration ((get_buffer_content initState cid).2) cid = 0)) :=
  ⟨Reachable.init, buffer_size_invariant initState Reachable.init⟩

/-- Counterexample to C3: a connected client with metrics entry at zero and
1.5 s already buffered receives a loud 100-sample fragment (duration
100/16000 s).  The fragment passes validation and is appended, no flush
triggers (duration 1.5 s < 5 s and the loud tail is not silent), and
`total_audio_seconds` stays 0 — whereas the claim demands it grow by the
fragment's duration 100/16000 ≠ 0 at append time. -/
theorem received_metric_cex :
    lookupKey (process_audio_chunk
        ⟨fun _ => Except.ok [], fun b => Except.ok b, fun _ => Except.ok ""⟩
        ⟨[("c", ())], [("c", [])], [("c", 23900)], [("c", ⟨0, 0, 0⟩)]⟩
        "c" (Except.ok (List.replicate 100 1))).1.audio_metrics "c" =
      some ⟨0, 0, 0⟩ ∧
    ((100 : ℚ) / (SAMPLE_RATE : ℚ) ≠ 0) := by
  have hflush : should_process_buffer
      (add_to_buffer ⟨[("c", ())], [("c", [])], [("c", 23900)], [("c", ⟨0, 0, 0⟩)]⟩ "c"
        (List.replicate 100 1)) "c" (List.replicate 100 1) = false := by
    norm_num [should_process_buffer, get_buffer_duration, add_to_buffer, lookupKey, setKey,
      tail_segment, sumSq_replicate, SAMPLE_RATE, BUFFER_MAX_SECONDS, BUFFER_MIN_SECONDS,
      silence_threshold]
  constructor
  · unfold process_audio_chunk
    simp only [List.length_replicate, Nat.lt_irrefl, if_false, hflush, Bool.false_eq_true,
      not_false_iff, if_true]
    rw [add_to_buffer_metrics]
    decide
  · norm_num [SAMPLE_RATE]

/-- C3 as amended: handling a validated fragment leaves
`total_audio_seconds` unchanged when the fragment does not trigger a flush,
and when it does trigger one the metric is incremented — at drain time, not
append time — by the duration of the whole drained buffer (its sample
count over the sample rate), whatever the collaborators then do;
`session_start_time` is never touched. -/
theorem received_metric_on_flush (cfg : Collaborators) (s : ConnState) (cid : String)
    (audio : Fragment) (m : MetricsEntry)
    (hm : lookupKey s.audio_metrics cid = some m) (hlen : ¬audio.length < 100) :
    (should_process_buffer (add_to_buffer s cid audio) cid audio = false →
      lookupKey (process_audio_chunk cfg s cid (Except.ok audio)).1.audio_metrics cid =
        some m) ∧
    (should_process_buffer (add_to_buffer s cid audio) cid audio = true →
      ∃ m', lookupKey (process_audio_chunk cfg s cid (Except.ok audio)).1.audio_metrics cid =
          some m' ∧
        m'.total_audio_seconds = m.total_audio_seconds +
          ((get_buffer_content (add_to_buffer s cid audio) cid).1.length : ℚ) /
            (SAMPLE_RATE : ℚ) ∧
        m'.session_start_time = m.session_start_time) := by
  have hm2 : lookupKey ((get_buffer_content (add_to_buffer s cid audio) cid).2).audio_metrics
      cid = some m := by
    rw [drain_metrics, add_to_buffer_metrics]; exact hm
  constructor
  · intro hf
    unfold process_audio_chunk
    simp only [hlen, if_false, hf, Bool.false_eq_true, not_false_iff, if_true]
    rw [add_to_buffer_metrics]; exact hm
  · intro hf
    unfold process_audio_chunk
    simp only [hlen, if_false, hf, not_true, if_false]
    have hm3 := bump_total_lookup_self
      ((get_buffer_content (add_to_buffer s cid audio) cid).2) cid
      (((get_buffer_content (add_to_buffer s cid audio) cid).1.length : ℚ) /
        (SAMPLE_RATE : ℚ)) m hm2
    cases hv : cfg.vad (get_buffer_content (add_to_buffer s cid audio) cid).1 with
    | error e => exact ⟨_, hm3, rfl, rfl⟩
    | ok voice =>
      by_cases hve : voice.length = 0
      · simp only [hve, if_true]
        exact ⟨_, hm3, rfl, rfl⟩
      · simp only [hve, if_false]
        cases hn : cfg.noise voice with
        | error e => exact ⟨_, hm3, rfl, rfl⟩
        | ok denoised =>
          have hm4 := bump_processed_lookup_self _ cid
            ((denoised.length : ℚ) / (SAMPLE_RATE : ℚ)) _ hm3
          exact ⟨_, hm4, rfl, rfl⟩

/-- Witness for C3 (amended): flush triggered by a silent fragment at the
minimum buffered duration. -/
theorem received_metric_on_flush_witness :
    lookupKey (⟨[("c", ())], [("c", [])], [("c", 23900)], [("c", ⟨0, 0, 0⟩)]⟩ :
      ConnState).audio_metrics "c" = some ⟨0, 0, 0⟩ ∧
    ¬(List.replicate 100 (0 : ℚ)).length < 100 ∧
    ((should_process_buffer
        (add_to_buffer ⟨[("c", ())], [("c", [])], [("c", 23900)], [("c", ⟨0, 0, 0⟩)]⟩ "c"
          (List.replicate 100 0)) "c" (List.replicate 100 0) = false →
      lookupKey (process_audio_chunk
          ⟨fun _ => Except.ok [], fun b => Except.ok b, fun _ => Except.ok ""⟩
          ⟨[("c", ())], [("c", [])], [("c", 23900)], [("c", ⟨0, 0, 0⟩)]⟩ "c"
          (Except.ok (List.replicate 100 0))).1.audio_metrics "c" = some ⟨0, 0, 0⟩) ∧
    (should_process_buffer
        (add_to_buffer ⟨[("c", ())], [("c", [])], [("c", 23900)], [("c", ⟨0, 0, 0⟩)]⟩ "c"
          (List.replicate 100 0)) "c" (List.replicate 100 0) = true →
      ∃ m', lookupKey (process_audio_chunk
          ⟨fun _ => Except.ok [], fun b => Except.ok b, fun _ => Except.ok ""⟩
          ⟨[("c", ())], [("c", [])], [("c", 23900)], [("c", ⟨0, 0, 0⟩)]⟩ "c"
          (Except.ok (List.replicate 100 0))).1.audio_metrics "c" = some m' ∧
        m'.total_audio_seconds = (0 : ℚ) +
          ((get_buffer_content
            (add_to_buffer ⟨[("c", ())], [("c", [])], [("c", 23900)], [("c", ⟨0, 0, 0⟩)]⟩
              "c" (List.replicate 100 0)) "c").1.length : ℚ) / (SAMPLE_RATE : ℚ) ∧
        m'.session_start_time = (0 : ℚ))) :=
  ⟨by decide, by decide,
    received_metric_on_flush
      ⟨fun _ => Except.ok [], fun b => Except.ok b, fun _ => Except.ok ""⟩
      ⟨[("c", ())], [("c", [])], [("c", 23900)], [("c", ⟨0, 0, 0⟩)]⟩ "c"
      (List.replicate 100 0) ⟨0, 0, 0⟩ (by decide) (by decide)⟩

/-- Counterexample to C4: connect a client at time 0 and disconnect it;
the metrics entry is still present afterwards (the source's `disconnect`
never deletes `audio_metrics` — the `clear_metrics` call is commented out),
and a metrics query at time 7 returns `session_duration = 7`, not the
zeroed default structure. -/
theorem disconnect_metrics_cex :
    lookupKey (disconnect (connect initState "c" 0) "c").audio_metrics "c" =
      some ⟨0, 0, 0⟩ ∧
    (get_optimization_metrics (disconnect (connect initState "c" 0) "c") "c" 7).session_duration
      = 7 ∧
    (7 : ℚ) ≠ 0 := by
  refine ⟨?_, ?_, by norm_num⟩
  · norm_num [disconnect, connect, initState, is_active, lookupKey, setKey, delKey]
  · norm_num [disconnect, connect, initState, is_active, lookupKey, setKey, delKey,
      get_optimization_metrics, pyRound2, roundHalfEven]

/-- C4 as amended: disconnecting a connected client removes the connection
handle and both buffer-dict entries without flushing (emitting nothing and
leaving every metric value as it was), but retains the client's
`audio_metrics` entry, so a later metrics query returns the retained
metrics (in particular its `session_duration` keeps growing from the
original session start), not the zeroed default. -/
theorem disconnect_spec (s : ConnState) (cid : String) (h : is_active s cid = true) :
    lookupKey (disconnect s cid).audio_buffers cid = none ∧
    lookupKey (disconnect s cid).buffer_sizes cid = none ∧
    is_active (disconnect s cid) cid = false ∧
    (disconnect s cid).audio_metrics = s.audio_metrics ∧
    (∀ now, get_optimization_metrics (disconnect s cid) cid now =
      get_optimization_metrics s cid now) := by
  have hmet : (disconnect s cid).audio_metrics = s.audio_metrics := by
    unfold disconnect; rw [if_pos h]
  refine ⟨?_, ?_, ?_, hmet, ?_⟩
  · unfold disconnect; rw [if_pos h]; exact lookupKey_delKey_self _ _
  · unfold disconnect; rw [if_pos h]; exact lookupKey_delKey_self _ _
  · unfold disconnect; rw [if_pos h]
    unfold is_active
    simp [lookupKey_delKey_self]
  · intro now
    unfold get_optimization_metrics
    rw [hmet]

/-- Witness for C4 (amended) on a freshly connected client. -/
theorem disconnect_spec_witness :
    is_active (connect initState "c" 0) "c" = true ∧
    (lookupKey (disconnect (connect initState "c" 0) "c").audio_buffers "c" = none ∧
    lookupKey (disconnect (connect initState "c" 0) "c").buffer_sizes "c" = none ∧
    is_active (disconnect (connect initState "c" 0) "c") "c" = false ∧
    (disconnect (connect initState "c" 0) "c").audio_metrics =
      (connect initState "c" 0).audio_metrics ∧
    (∀ now, get_optimization_metrics (disconnect (connect initState "c" 0) "c") "c" now =
      get_optimization_metrics (connect initState "c" 0) "c" now)) :=
  ⟨by decide, disconnect_spec (connect initState "c" 0) "c" (by decide)⟩

/-- Counterexample to C6: with `total_audio_seconds = 3` and
`processed_audio_seconds = 2`, the exact formula gives
`100·(3−2)/3 = 100/3 = 33.333…`, but the query returns the two-decimal
rounding 33.33 (`round(x, 2)` in the source), so the returned percentage
is not `100·(total−processed)/total`. -/
theorem metrics_formula_cex :
    (get_optimization_metrics ⟨[], [], [], [("c", ⟨3, 2, 0⟩)]⟩ "c" 0).optimization_percentage =
      3333 / 100 ∧
    (3333 : ℚ) / 100 ≠ 100 * ((3 : ℚ) - 2) / 3 := by
  have hfl : ⌊(10000 : ℚ) / 3⌋ = 3333 := by norm_num [Int.floor_eq_iff]
  constructor
  · norm_num [get_optimization_metrics, lookupKey, pyRound2, roundHalfEven, hfl]
  · norm_num

/-- C6 as amended: for every client with a metrics entry the query returns
the formula values rounded to two decimal places (round-half-to-even):
`optimization_percentage = round₂(100·(total−processed)/total)` (0 when the
total is 0), `seconds_saved = round₂(total−processed)` (0 when the total is
0), the two raw counters and the session duration likewise rounded; for a
client id with no metrics entry it returns the all-zero structure, never an
error. -/
theorem metrics_query_rounded (s : ConnState) (cid : String) (now : ℚ) (m : MetricsEntry)
    (hm : lookupKey s.audio_metrics cid = some m) :
    (get_optimization_metrics s cid now =
      { total_audio_seconds := pyRound2 m.total_audio_seconds
        processed_audio_seconds := pyRound2 m.processed_audio_seconds
        optimization_percentage :=
          pyRound2 (if 0 < m.total_audio_seconds then
            100 * (m.total_audio_seconds - m.processed_audio_seconds) / m.total_audio_seconds
          else 0)
        seconds_saved :=
          pyRound2 (if 0 < m.total_audio_seconds then
            m.total_audio_seconds - m.processed_audio_seconds
          else 0)
        session_duration := pyRound2 (now - m.session_start_time) }) ∧
    (∀ cid', lookupKey s.audio_metrics cid' = none →
      get_optimization_metrics s cid' now = ⟨0, 0, 0, 0, 0⟩) := by
  constructor
  · unfold get_optimization_metrics
    rw [hm]
    by_cases h0 : 0 < m.total_audio_seconds
    · have harg : (m.total_audio_seconds - m.processed_audio_seconds) /
          m.total_audio_seconds * 100 =
          100 * (m.total_audio_seconds - m.processed_audio_seconds) /
            m.total_audio_seconds := by
        ring
      simp only [h0, if_true, harg]
    · simp only [h0, if_false]
  · intro cid' h'
    unfold get_optimization_metrics
    rw [h']

/-- Witness for C6 (amended) at the spec's worked example
`total = 10`, `processed = 4` (which rounds to exactly 60.0 and 6.0). -/
theorem metrics_query_rounded_witness :
    lookupKey (⟨[], [], [], [("c", ⟨10, 4, 0⟩)]⟩ : ConnState).audio_metrics "c" =
      some ⟨10, 4, 0⟩ ∧
    ((get_optimization_metrics ⟨[], [], [], [("c", ⟨10, 4, 0⟩)]⟩ "c" 0 =
      { total_audio_seconds := pyRound2 (10 : ℚ)
        processed_audio_seconds := pyRound2 (4 : ℚ)
        optimization_percentage :=
          pyRound2 (if 0 < (10 : ℚ) then 100 * ((10 : ℚ) - 4) / 10 else 0)
        seconds_saved := pyRound2 (if 0 < (10 : ℚ) then (10 : ℚ) - 4 else 0)
        session_duration := pyRound2 ((0 : ℚ) - 0) }) ∧
    (∀ cid', lookupKey (⟨[], [], [], [("c", ⟨10, 4, 0⟩)]⟩ : ConnState).audio_metrics cid' =
        none →
      get_optimization_metrics ⟨[], [], [], [("c", ⟨10, 4, 0⟩)]⟩ cid' 0 = ⟨0, 0, 0, 0, 0⟩)) :=
  ⟨by decide, metrics_query_rounded ⟨[], [], [], [("c", ⟨10, 4, 0⟩)]⟩ "c" 0 ⟨10, 4, 0⟩
    (by decide)⟩

/-- C7: when the VAD collaborator maps the drained buffer of a flush to the
empty result, the connected client receives exactly one
`{"status": "no_voice_detected"}` message for that flush,
`processed_audio_seconds` is left unchanged, and neither the noise-reduction
nor the transcription collaborator influences the outcome (the handler's
result is identical for every choice of those two collaborators — they are
not invoked). -/
theorem vad_empty_no_voice (cfg : Collaborators) (s : ConnState) (cid : String)
    (audio : Fragment)
    (hact : is_active s cid = true) (hlen : ¬audio.length < 100)
    (hfl : should_process_buffer (add_to_buffer s cid audio) cid audio = true)
    (hvad : cfg.vad (get_buffer_content (add_to_buffer s cid audio) cid).1 = Except.ok []) :
    (process_audio_chunk cfg s cid (Except.ok audio)).2 = [Msg.no_voice_detected] ∧
    (∀ m, lookupKey s.audio_metrics cid = some m →
      ∃ m', lookupKey (process_audio_chunk cfg s cid (Except.ok audio)).1.audio_metrics cid =
          some m' ∧ m'.processed_audio_seconds = m.processed_audio_seconds) ∧
    (∀ noiseAlt apiAlt,
      process_audio_chunk ⟨cfg.vad, noiseAlt, apiAlt⟩ s cid (Except.ok audio) =
        process_audio_chunk cfg s cid (Except.ok audio)) := by
  have hact3 : is_active
      (bump_total ((get_buffer_content (add_to_buffer s cid audio) cid).2) cid
        (((get_buffer_content (add_to_buffer s cid audio) cid).1.length : ℚ) /
          (SAMPLE_RATE : ℚ))) cid = true := by
    unfold is_active
    rw [bump_total_active, drain_active, add_to_buffer_active]
    exact hact
  have hgen : ∀ cfg' : Collaborators, cfg'.vad = cfg.vad →
      process_audio_chunk cfg' s cid (Except.ok audio) =
        (bump_total ((get_buffer_content (add_to_buffer s cid audio) cid).2) cid
          (((get_buffer_content (add_to_buffer s cid audio) cid).1.length : ℚ) /
            (SAMPLE_RATE : ℚ)),
          [Msg.no_voice_detected]) := by
    intro cfg' hv
    unfold process_audio_chunk
    simp only [hlen, if_false, hfl, not_true, List.length_nil, if_true, hv, hvad,
      send_message, hact3]
  refine ⟨?_, ?_, ?_⟩
  · rw [hgen cfg rfl]
  · intro m hm
    have hm2 : lookupKey ((get_buffer_content (add_to_buffer s cid audio) cid).2).audio_metrics
        cid = some m := by
      rw [drain_metrics, add_to_buffer_metrics]; exact hm
    have hm3 := bump_total_lookup_self
      ((get_buffer_content (add_to_buffer s cid audio) cid).2) cid
      (((get_buffer_content (add_to_buffer s cid audio) cid).1.length : ℚ) /
        (SAMPLE_RATE : ℚ)) m hm2
    rw [hgen cfg rfl]
    exact ⟨_, hm3, rfl⟩
  · intro noiseAlt apiAlt
    rw [hgen cfg rfl, hgen ⟨cfg.vad, noiseAlt, apiAlt⟩ rfl]

/-- Witness for C7: a max-cap flush whose VAD result is empty. -/
theorem vad_empty_no_voice_witness :
    is_active (⟨[("c", ())], [("c", [])], [("c", 79900)], [("c", ⟨0, 0, 0⟩)]⟩ : ConnState)
      "c" = true ∧
    ¬(List.replicate 100 (1 : ℚ)).length < 100 ∧
    should_process_buffer
      (add_to_buffer ⟨[("c", ())], [("c", [])], [("c", 79900)], [("c", ⟨0, 0, 0⟩)]⟩ "c"
        (List.replicate 100 1)) "c" (List.replicate 100 1) = true ∧
    ((process_audio_chunk
        ⟨fun _ => Except.ok [], fun b => Except.ok b, fun _ => Except.ok ""⟩
        ⟨[("c", ())], [("c", [])], [("c", 79900)], [("c", ⟨0, 0, 0⟩)]⟩ "c"
        (Except.ok (List.replicate 100 1))).2 = [Msg.no_voice_detected] ∧
    (∀ m, lookupKey (⟨[("c", ())], [("c", [])], [("c", 79900)], [("c", ⟨0, 0, 0⟩)]⟩ :
          ConnState).audio_metrics "c" = some m →
      ∃ m', lookupKey (process_audio_chunk
          ⟨fun _ => Except.ok [], fun b => Except.ok b, fun _ => Except.ok ""⟩
          ⟨[("c", ())], [("c", [])], [("c", 79900)], [("c", ⟨0, 0, 0⟩)]⟩ "c"
          (Except.ok (List.replicate 100 1))).1.audio_metrics "c" = some m' ∧
        m'.processed_audio_seconds = m.processed_audio_seconds) ∧
    (∀ noiseAlt apiAlt,
      process_audio_chunk ⟨fun _ => Except.ok [], noiseAlt, apiAlt⟩
        ⟨[("c", ())], [("c", [])], [("c", 79900)], [("c", ⟨0, 0, 0⟩)]⟩ "c"
        (Except.ok (List.replicate 100 1)) =
      process_audio_chunk
        ⟨fun _ => Except.ok [], fun b => Except.ok b, fun _ => Except.ok ""⟩
        ⟨[("c", ())], [("c", [])], [("c", 79900)], [("c", ⟨0, 0, 0⟩)]⟩ "c"
        (Except.ok (List.replicate 100 1)))) :=
  ⟨by decide, by decide,
    by norm_num [should_process_buffer, get_buffer_duration, add_to_buffer, lookupKey,
      setKey, SAMPLE_RATE, BUFFER_MAX_SECONDS, BUFFER_MIN_SECONDS],
    vad_empty_no_voice
      ⟨fun _ => Except.ok [], fun b => Except.ok b, fun _ => Except.ok ""⟩
      ⟨[("c", ())], [("c", [])], [("c", 79900)], [("c", ⟨0, 0, 0⟩)]⟩ "c"
      (List.replicate 100 1) (by decide) (by decide)
      (by norm_num [should_process_buffer, get_buffer_duration, add_to_buffer, lookupKey,
        setKey, SAMPLE_RATE, BUFFER_MAX_SECONDS, BUFFER_MIN_SECONDS])
      rfl⟩

/-- `is_active` is untouched by a buffer append. -/
theorem is_active_add_to_buffer (s : ConnState) (cid : String) (f : Fragment) (c : String) :
    is_active (add_to_buffer s cid f) c = is_active s c := by
  unfold is_active; rw [add_to_buffer_active]

/-- `is_active` is untouched by a drain. -/
theorem is_active_drain (s : ConnState) (cid c : String) :
    is_active ((get_buffer_content s cid).2) c = is_active s c := by
  unfold is_active; rw [drain_active]

/-- `is_active` is untouched by a `total_audio_seconds` update. -/
theorem is_active_bump_total (s : ConnState) (cid : String) (d : ℚ) (c : String) :
    is_active (bump_total s cid d) c = is_active s c := by
  unfold is_active; rw [bump_total_active]

/-- `is_active` is untouched by a `processed_audio_seconds` update. -/
theorem is_active_bump_processed (s : ConnState) (cid : String) (d : ℚ) (c : String) :
    is_active (bump_processed s cid d) c = is_active s c := by
  unfold is_active; rw [bump_processed_active]

/-- `ConnectionManager.send_message` over a transport whose individual
`send_json` calls may raise: `sendFail m = some e` means the await on
sending `m` raises the exception `e`.  A client absent from
`active_connections` gets no send attempt (and hence no raise), exactly as
in the source. -/
def send_message_sf (s : ConnState) (cid : String) (sendFail : Msg → Option String)
    (m : Msg) : Except String (List Msg) :=
  if is_active s cid then
    match sendFail m with
    | some e => Except.error e
    | none => Except.ok [m]
  else Except.ok []

/-- The `except` clause of `process_audio_chunk`: the caught exception `e`
is converted into one `{status: error, message}` send; if that send itself
raises, the new exception escapes the handler (modelled as the `some`
escape component). `delivered` are the messages already sent in the `try`
body before the raise. -/
def handle_raise (s : ConnState) (cid : String) (sendFail : Msg → Option String)
    (e : String) (delivered : List Msg) : ConnState × List Msg × Option String :=
  match send_message_sf s cid sendFail (Msg.error e) with
  | .ok ms => (s, delivered ++ ms, none)
  | .error e2 => (s, delivered, some e2)

/-- The `async for` over the transcription generator with fallible sends:
returns the messages delivered and, if a send raised, the escaping
exception (which the caller's `except` clause then handles). -/
def emit_chunks_sf (s : ConnState) (cid : String) (sendFail : Msg → Option String) :
    List Chunk → List Msg × Option String
  | [] => ([], none)
  | Chunk.err e :: _ =>
    match send_message_sf s cid sendFail (Msg.error e) with
    | .ok ms => (ms, none)
    | .error e2 => ([], some e2)
  | Chunk.ok t fin :: rest =>
    match send_message_sf s cid sendFail (Msg.success t fin) with
    | .error e2 => ([], some e2)
    | .ok ms =>
      if fin then (ms, none)
      else
        let tl := emit_chunks_sf s cid sendFail rest
        (ms ++ tl.1, tl.2)

/-- `ConnectionManager.process_audio_chunk` over a transport whose sends
may raise (`process_audio_chunk` above is the special case of a transport
that never does).  Returns the new state, the messages actually delivered
to the client, and `some e` when an exception escaped the handler — which
happens exactly when the `except` clause's own error send raises. -/
def process_audio_chunk_sf (cfg : Collaborators) (sendFail : Msg → Option String)
    (s : ConnState) (cid : String) (decoded : Except String Fragment) :
    ConnState × List Msg × Option String :=
  match decoded with
  | .error e => handle_raise s cid sendFail e []
  | .ok audio =>
    if audio.length < 100 then (s, [], none)
    else
      let s1 := add_to_buffer s cid audio
      if ¬should_process_buffer s1 cid audio then (s1, [], none)
      else
        let drained := get_buffer_content s1 cid
        let s3 := bump_total drained.2 cid ((drained.1.length : ℚ) / (SAMPLE_RATE : ℚ))
        match cfg.vad drained.1 with
        | .error e => handle_raise s3 cid sendFail e []
        | .ok voice =>
          if voice.length = 0 then
            match send_message_sf s3 cid sendFail Msg.no_voice_detected with
            | .ok ms => (s3, ms, none)
            | .error e2 => handle_raise s3 cid sendFail e2 []
          else
            match cfg.noise voice with
            | .error e => handle_raise s3 cid sendFail e []
            | .ok denoised =>
              let s4 := bump_processed s3 cid ((denoised.length : ℚ) / (SAMPLE_RATE : ℚ))
              let em := emit_chunks_sf s4 cid sendFail (transcribe_audio_tensor cfg.api denoised)
              match em.2 with
              | none => (s4, em.1, none)
              | some e => handle_raise s4 cid sendFail e em.1

/-- The receive loop of `websocket_endpoint` over the send-fallible
transport: when an exception escapes `process_audio_chunk`, the endpoint's
`except Exception` clause calls `manager.disconnect(client_id)` and the
loop ends; otherwise the next frame is handled from the resulting state.
(The list is the frames received while the transport stays open;
transport-initiated closure afterwards is the `disconnect` path of C4.) -/
def ws_loop_sf (cfg : Collaborators) (sendFail : Msg → Option String) :
    ConnState → String → List (Except String Fragment) → ConnState × List Msg
  | s, _, [] => (s, [])
  | s, cid, d :: rest =>
    let pr := process_audio_chunk_sf cfg sendFail s cid d
    match pr.2.2 with
    | some _ => (disconnect pr.1 cid, pr.2.1)
    | none =>
      let tl := ws_loop_sf cfg sendFail pr.1 cid rest
      (tl.1, pr.2.1 ++ tl.2)

/-- `handle_raise` never changes the state. -/
theorem handle_raise_state (s : ConnState) (cid : String) (sendFail : Msg → Option String)
    (e : String) (d : List Msg) : (handle_raise s cid sendFail e d).1 = s := by
  unfold handle_raise
  cases h : send_message_sf s cid sendFail (Msg.error e) <;> simp [h]

/-- A send to a connected client over a transport that does not raise on
this message delivers exactly that message. -/
theorem send_message_sf_ok (s : ConnState) (cid : String) (sendFail : Msg → Option String)
    (m : Msg) (hact : is_active s cid = true) (hnone : sendFail m = none) :
    send_message_sf s cid sendFail m = Except.ok [m] := by
  unfold send_message_sf
  rw [if_pos hact, hnone]

/-- A send to a connected client over a transport that raises on this
message raises. -/
theorem send_message_sf_err (s : ConnState) (cid : String) (sendFail : Msg → Option String)
    (m : Msg) (e2 : String) (hact : is_active s cid = true) (hsome : sendFail m = some e2) :
    send_message_sf s cid sendFail m = Except.error e2 := by
  unfold send_message_sf
  rw [if_pos hact, hsome]

/-- When the error emission is deliverable, the `except` clause appends
exactly one error message and nothing escapes. -/
theorem handle_raise_ok (s : ConnState) (cid : String) (sendFail : Msg → Option String)
    (e : String) (d : List Msg) (hact : is_active s cid = true)
    (hnone : sendFail (Msg.error e) = none) :
    handle_raise s cid sendFail e d = (s, d ++ [Msg.error e], none) := by
  unfold handle_raise
  rw [send_message_sf_ok s cid sendFail _ hact hnone]

/-- When the error emission itself raises, nothing further is delivered and
the new exception escapes the handler. -/
theorem handle_raise_err (s : ConnState) (cid : String) (sendFail : Msg → Option String)
    (e e2 : String) (d : List Msg) (hact : is_active s cid = true)
    (hsome : sendFail (Msg.error e) = some e2) :
    handle_raise s cid sendFail e d = (s, d, some e2) := by
  unfold handle_raise
  rw [send_message_sf_err s cid sendFail _ e2 hact hsome]

/-- The invocations of `process_audio_chunk` in which a non-send step of
the `try` body raises: decoding the received bytes fails, or the handling
reaches the flush path and the VAD call, the noise-reduction call, or the
transcription call (on a non-empty input) fails.  Send raises are treated
separately (parts of C8's theorem), since their outcome depends on whether
the `except` clause's own error send also raises. -/
def pipeline_step_fails (cfg : Collaborators) (s : ConnState) (cid : String)
    (decoded : Except String Fragment) : Prop :=
  match decoded with
  | .error _ => True
  | .ok audio =>
    ¬audio.length < 100 ∧
    should_process_buffer (add_to_buffer s cid audio) cid audio = true ∧
    ((∃ e, cfg.vad (get_buffer_content (add_to_buffer s cid audio) cid).1 =
        Except.error e) ∨
      (∃ voice, cfg.vad (get_buffer_content (add_to_buffer s cid audio) cid).1 =
          Except.ok voice ∧ ¬voice.length = 0 ∧
        ((∃ e, cfg.noise voice = Except.error e) ∨
          (∃ denoised, cfg.noise voice = Except.ok denoised ∧ ¬denoised.length = 0 ∧
            ∃ e, cfg.api denoised = Except.error e))))

/-- `pySplit` on `"hi"` (used by the concrete C8 scenario). -/
theorem pySplit_hi : pySplit "hi" = ["hi"] := by
  unfold pySplit
  rw [String.split_of_valid]
  rfl

/-- A flush that reaches the transcription results but whose transport
raises on the first result send *and* on the `except` clause's error send:
no message is delivered and the second exception escapes the handler; the
state's connection registry is untouched by the handler itself. -/
theorem process_sf_send_fail (cfg : Collaborators) (sendFail : Msg → Option String)
    (s : ConnState) (cid : String) (audio voice denoised : Fragment) (t w : String)
    (tw : List String) (esend e2 : String)
    (hact : is_active s cid = true)
    (hlen : ¬audio.length < 100)
    (hfl : should_process_buffer (add_to_buffer s cid audio) cid audio = true)
    (hv : cfg.vad (get_buffer_content (add_to_buffer s cid audio) cid).1 = Except.ok voice)
    (hve : ¬voice.length = 0)
    (hn : cfg.noise voice = Except.ok denoised)
    (hde : ¬denoised.length = 0)
    (hapi : cfg.api denoised = Except.ok t)
    (hw : pySplit t = w :: tw)
    (hsfail : ∀ fin, sendFail (Msg.success w fin) = some esend)
    (herr : sendFail (Msg.error esend) = some e2) :
    (process_audio_chunk_sf cfg sendFail s cid (Except.ok audio)).2 = ([], some e2) ∧
    (process_audio_chunk_sf cfg sendFail s cid (Except.ok audio)).1.active_connections =
      s.active_connections := by
  have hact4 : ∀ d : ℚ, is_active
      (bump_processed
        (bump_total ((get_buffer_content (add_to_buffer s cid audio) cid).2) cid
          (((get_buffer_content (add_to_buffer s cid audio) cid).1.length : ℚ) /
            (SAMPLE_RATE : ℚ))) cid d) cid = true := by
    intro d
    rw [is_active_bump_processed, is_active_bump_total, is_active_drain,
      is_active_add_to_buffer]
    exact hact
  have hpr : process_audio_chunk_sf cfg sendFail s cid (Except.ok audio) =
      (bump_processed
        (bump_total ((get_buffer_content (add_to_buffer s cid audio) cid).2) cid
          (((get_buffer_content (add_to_buffer s cid audio) cid).1.length : ℚ) /
            (SAMPLE_RATE : ℚ))) cid ((denoised.length : ℚ) / (SAMPLE_RATE : ℚ)),
        [], some e2) := by
    unfold process_audio_chunk_sf
    simp only [hlen, if_false, hfl, not_true, if_true, hv, hve, hn]
    unfold transcribe_audio_tensor
    simp only [hde, if_false, hapi, hw, List.enum_cons, List.map_cons]
    unfold emit_chunks_sf
    rw [send_message_sf_err _ cid sendFail _ esend (hact4 _) (hsfail _)]
    exact handle_raise_err _ cid sendFail esend e2 [] (hact4 _) herr
  constructor
  · rw [hpr]
  · rw [hpr]
    rw [bump_processed_active, bump_total_active, drain_active, add_to_buffer_active]

/-- Counterexample to C8 as stated: a connected client's flush reaches
transcription (one word, "hi"), but the transport raises on every send
("connection closed").  The success-message send raises; the `except`
clause's own error send then raises too; the exception escapes
`process_audio_chunk`, and `websocket_endpoint`'s `except Exception`
disconnects the client.  The client receives no message at all — not the
single `{status: error}` emission the claim promises — and the connection
is not kept open. -/
theorem send_failure_disconnect_cex :
    (ws_loop_sf ⟨fun _ => Except.ok [1], fun _ => Except.ok [1], fun _ => Except.ok "hi"⟩
      (fun _ => some "connection closed")
      ⟨[("c", ())], [("c", [])], [("c", 79900)], [("c", ⟨0, 0, 0⟩)]⟩ "c"
      [Except.ok (List.replicate 100 1)]).2 = [] ∧
    is_active (ws_loop_sf
      ⟨fun _ => Except.ok [1], fun _ => Except.ok [1], fun _ => Except.ok "hi"⟩
      (fun _ => some "connection closed")
      ⟨[("c", ())], [("c", [])], [("c", 79900)], [("c", ⟨0, 0, 0⟩)]⟩ "c"
      [Except.ok (List.replicate 100 1)]).1 "c" = false := by
  have h2 := process_sf_send_fail
    ⟨fun _ => Except.ok [1], fun _ => Except.ok [1], fun _ => Except.ok "hi"⟩
    (fun _ => some "connection closed")
    ⟨[("c", ())], [("c", [])], [("c", 79900)], [("c", ⟨0, 0, 0⟩)]⟩ "c"
    (List.replicate 100 1) [1] [1] "hi" "hi" [] "connection closed" "connection closed"
    (by decide) (by decide)
    (by norm_num [should_process_buffer, get_buffer_duration, add_to_buffer, lookupKey,
      setKey, SAMPLE_RATE, BUFFER_MAX_SECONDS, BUFFER_MIN_SECONDS])
    rfl (by decide) rfl (by decide) rfl pySplit_hi (fun _ => rfl) rfl
  have hesc : (process_audio_chunk_sf
      ⟨fun _ => Except.ok [1], fun _ => Except.ok [1], fun _ => Except.ok "hi"⟩
      (fun _ => some "connection closed")
      ⟨[("c", ())], [("c", [])], [("c", 79900)], [("c", ⟨0, 0, 0⟩)]⟩ "c"
      (Except.ok (List.replicate 100 1))).2.2 = some "connection closed" := by
    rw [h2.1]
  have hmsg : (process_audio_chunk_sf
      ⟨fun _ => Except.ok [1], fun _ => Except.ok [1], fun _ => Except.ok "hi"⟩
      (fun _ => some "connection closed")
      ⟨[("c", ())], [("c", [])], [("c", 79900)], [("c", ⟨0, 0, 0⟩)]⟩ "c"
      (Except.ok (List.replicate 100 1))).2.1 = [] := by
    rw [h2.1]
  have hactpr : is_active (process_audio_chunk_sf
      ⟨fun _ => Except.ok [1], fun _ => Except.ok [1], fun _ => Except.ok "hi"⟩
      (fun _ => some "connection closed")
      ⟨[("c", ())], [("c", [])], [("c", 79900)], [("c", ⟨0, 0, 0⟩)]⟩ "c"
      (Except.ok (List.replicate 100 1))).1 "c" = true := by
    unfold is_active
    rw [h2.2]
    decide
  constructor
  · simp only [ws_loop_sf, hesc, hmsg]
  · simp only [ws_loop_sf, hesc]
    unfold disconnect
    rw [if_pos hactpr]
    unfold is_active
    simp [lookupKey_delKey_self]

/-- C8 as amended: (A) when a non-send step (decoding, VAD, noise
reduction, transcription) raises and the transport delivers sends, the
client receives exactly one `{status: error}` emission, nothing escapes the
handler, the buffer stays drained (the failed flush's audio is not
restored) and the receive loop continues with the next frame; (B) when a
non-send step raises and every send raises (broken socket), no message is
delivered, the second exception escapes the handler and the websocket
endpoint disconnects the client; (C) when the raising step is the sending
of a transcription result and the `except` clause's error send is
delivered, the client still receives exactly one error emission, nothing
escapes, and the buffer stays drained. -/
theorem step_failure_spec (cfg : Collaborators) (sendFail : Msg → Option String)
    (s : ConnState) (cid : String) (decoded : Except String Fragment)
    (hact : is_active s cid = true) :
    ((∀ m, sendFail m = none) → pipeline_step_fails cfg s cid decoded →
      (∃ e, (process_audio_chunk_sf cfg sendFail s cid decoded).2 =
        ([Msg.error e], none)) ∧
      (∀ audio, decoded = Except.ok audio →
        lookupKey (process_audio_chunk_sf cfg sendFail s cid decoded).1.audio_buffers cid =
          some []) ∧
      (∀ rest, ws_loop_sf cfg sendFail s cid (decoded :: rest) =
        ((ws_loop_sf cfg sendFail (process_audio_chunk_sf cfg sendFail s cid decoded).1 cid
            rest).1,
          (process_audio_chunk_sf cfg sendFail s cid decoded).2.1 ++
            (ws_loop_sf cfg sendFail (process_audio_chunk_sf cfg sendFail s cid decoded).1
              cid rest).2))) ∧
    ((∀ m, ∃ e2, sendFail m = some e2) → pipeline_step_fails cfg s cid decoded →
      (∃ e2, (process_audio_chunk_sf cfg sendFail s cid decoded).2 = ([], some e2)) ∧
      (∀ rest, ws_loop_sf cfg sendFail s cid (decoded :: rest) =
        (disconnect (process_audio_chunk_sf cfg sendFail s cid decoded).1 cid, []))) ∧
    (∀ audio voice denoised t w tw esend,
      decoded = Except.ok audio → ¬audio.length < 100 →
      should_process_buffer (add_to_buffer s cid audio) cid audio = true →
      cfg.vad (get_buffer_content (add_to_buffer s cid audio) cid).1 = Except.ok voice →
      ¬voice.length = 0 →
      cfg.noise voice = Except.ok denoised → ¬denoised.length = 0 →
      cfg.api denoised = Except.ok t → pySplit t = w :: tw →
      (∀ fin, sendFail (Msg.success w fin) = some esend) →
      sendFail (Msg.error esend) = none →
      (process_audio_chunk_sf cfg sendFail s cid decoded).2 = ([Msg.error esend], none) ∧
      lookupKey (process_audio_chunk_sf cfg sendFail s cid decoded).1.audio_buffers cid =
        some []) := by
  have hact3 : ∀ audio : Fragment, is_active
      (bump_total ((get_buffer_content (add_to_buffer s cid audio) cid).2) cid
        (((get_buffer_content (add_to_buffer s cid audio) cid).1.length : ℚ) /
          (SAMPLE_RATE : ℚ))) cid = true := by
    intro audio
    rw [is_active_bump_total, is_active_drain, is_active_add_to_buffer]
    exact hact
  have hact4 : ∀ (audio : Fragment) (d : ℚ), is_active
      (bump_processed
        (bump_total ((get_buffer_content (add_to_buffer s cid audio) cid).2) cid
          (((get_buffer_content (add_to_buffer s cid audio) cid).1.length : ℚ) /
            (SAMPLE_RATE : ℚ))) cid d) cid = true := by
    intro audio d
    rw [is_active_bump_processed]
    exact hact3 audio
  have hdrained : ∀ audio : Fragment, lookupKey
      ((get_buffer_content (add_to_buffer s cid audio) cid).2).audio_buffers cid =
        some [] := fun audio =>
    drain_buffers_self (add_to_buffer s cid audio) cid _
      (lookup_add_to_buffer_self s cid audio) (by simp)
  refine ⟨?_, ?_, ?_⟩
  · -- (A) pipeline failure, healthy transport
    intro hok hf
    cases decoded with
    | error e =>
      have hpr : process_audio_chunk_sf cfg sendFail s cid (Except.error e) =
          (s, [Msg.error e], none) := by
        show handle_raise s cid sendFail e [] = _
        rw [handle_raise_ok s cid sendFail e [] hact (hok _)]
        rfl
      refine ⟨⟨e, by rw [hpr]⟩, ?_, ?_⟩
      · intro audio h
        cases h
      · intro rest
        simp [ws_loop_sf, hpr]
    | ok audio =>
      obtain ⟨hlen, hfl, hor⟩ := hf
      rcases hor with ⟨e, hv⟩ | ⟨voice, hv, hve, ⟨e, hn⟩ | ⟨denoised, hn, hde, e, hapi⟩⟩
      · have hpr : process_audio_chunk_sf cfg sendFail s cid (Except.ok audio) =
            (bump_total ((get_buffer_content (add_to_buffer s cid audio) cid).2) cid
              (((get_buffer_content (add_to_buffer s cid audio) cid).1.length : ℚ) /
                (SAMPLE_RATE : ℚ)), [Msg.error e], none) := by
          unfold process_audio_chunk_sf
          simp only [hlen, if_false, hfl, not_true, if_true, hv]
          rw [handle_raise_ok _ cid sendFail e [] (hact3 audio) (hok _)]
          rfl
        refine ⟨⟨e, by rw [hpr]⟩, ?_, fun rest => by simp [ws_loop_sf, hpr]⟩
        intro audio2 h2
        injection h2 with h2
        subst h2
        rw [hpr]
        rw [bump_total_buffers]
        exact hdrained audio
      · have hpr : process_audio_chunk_sf cfg sendFail s cid (Except.ok audio) =
            (bump_total ((get_buffer_content (add_to_buffer s cid audio) cid).2) cid
              (((get_buffer_content (add_to_buffer s cid audio) cid).1.length : ℚ) /
                (SAMPLE_RATE : ℚ)), [Msg.error e], none) := by
          unfold process_audio_chunk_sf
          simp only [hlen, if_false, hfl, not_true, if_true, hv, hve, hn]
          rw [handle_raise_ok _ cid sendFail e [] (hact3 audio) (hok _)]
          rfl
        refine ⟨⟨e, by rw [hpr]⟩, ?_, fun rest => by simp [ws_loop_sf, hpr]⟩
        intro audio2 h2
        injection h2 with h2
        subst h2
        rw [hpr]
        rw [bump_total_buffers]
        exact hdrained audio
      · have hpr : process_audio_chunk_sf cfg sendFail s cid (Except.ok audio) =
            (bump_processed
              (bump_total ((get_buffer_content (add_to_buffer s cid audio) cid).2) cid
                (((get_buffer_content (add_to_buffer s cid audio) cid).1.length : ℚ) /
                  (SAMPLE_RATE : ℚ))) cid ((denoised.length : ℚ) / (SAMPLE_RATE : ℚ)),
              [Msg.error e], none) := by
          unfold process_audio_chunk_sf
          simp only [hlen, if_false, hfl, not_true, if_true, hv, hve, hn]
          unfold transcribe_audio_tensor
          simp only [hde, if_false, hapi]
          unfold emit_chunks_sf
          rw [send_message_sf_ok _ cid sendFail _ (hact4 audio _) (hok _)]
        refine ⟨⟨e, by rw [hpr]⟩, ?_, fun rest => by simp [ws_loop_sf, hpr]⟩
        intro audio2 h2
        injection h2 with h2
        subst h2
        rw [hpr]
        rw [bump_processed_buffers, bump_total_buffers]
        exact hdrained audio
  · -- (B) pipeline failure, every send raises
    intro hall hf
    cases decoded with
    | error e =>
      obtain ⟨e2, he2⟩ := hall (Msg.error e)
      have hpr : process_audio_chunk_sf cfg sendFail s cid (Except.error e) =
          (s, [], some e2) := by
        show handle_raise s cid sendFail e [] = _
        rw [handle_raise_err s cid sendFail e e2 [] hact he2]
      exact ⟨⟨e2, by rw [hpr]⟩, fun rest => by simp [ws_loop_sf, hpr]⟩
    | ok audio =>
      obtain ⟨hlen, hfl, hor⟩ := hf
      rcases hor with ⟨e, hv⟩ | ⟨voice, hv, hve, ⟨e, hn⟩ | ⟨denoised, hn, hde, e, hapi⟩⟩
      · obtain ⟨e2, he2⟩ := hall (Msg.error e)
        have hpr : process_audio_chunk_sf cfg sendFail s cid (Except.ok audio) =
            (bump_total ((get_buffer_content (add_to_buffer s cid audio) cid).2) cid
              (((get_buffer_content (add_to_buffer s cid audio) cid).1.length : ℚ) /
                (SAMPLE_RATE : ℚ)), [], some e2) := by
          unfold process_audio_chunk_sf
          simp only [hlen, if_false, hfl, not_true, if_true, hv]
          rw [handle_raise_err _ cid sendFail e e2 [] (hact3 audio) he2]
        exact ⟨⟨e2, by rw [hpr]⟩, fun rest => by simp [ws_loop_sf, hpr]⟩
      · obtain ⟨e2, he2⟩ := hall (Msg.error e)
        have hpr : process_audio_chunk_sf cfg sendFail s cid (Except.ok audio) =
            (bump_total ((get_buffer_content (add_to_buffer s cid audio) cid).2) cid
              (((get_buffer_content (add_to_buffer s cid audio) cid).1.length : ℚ) /
                (SAMPLE_RATE : ℚ)), [], some e2) := by
          unfold process_audio_chunk_sf
          simp only [hlen, if_false, hfl, not_true, if_true, hv, hve, hn]
          rw [handle_raise_err _ cid sendFail e e2 [] (hact3 audio) he2]
        exact ⟨⟨e2, by rw [hpr]⟩, fun rest => by simp [ws_loop_sf, hpr]⟩
      · obtain ⟨e2, he2⟩ := hall (Msg.error e)
        obtain ⟨e3, he3⟩ := hall (Msg.error e2)
        have hpr : process_audio_chunk_sf cfg sendFail s cid (Except.ok audio) =
            (bump_processed
              (bump_total ((get_buffer_content (add_to_buffer s cid audio) cid).2) cid
                (((get_buffer_content (add_to_buffer s cid audio) cid).1.length : ℚ) /
                  (SAMPLE_RATE : ℚ))) cid ((denoised.length : ℚ) / (SAMPLE_RATE : ℚ)),
              [], some e3) := by
          unfold process_audio_chunk_sf
          simp only [hlen, if_false, hfl, not_true, if_true, hv, hve, hn]
          unfold transcribe_audio_tensor
          simp only [hde, if_false, hapi]
          unfold emit_chunks_sf
          rw [send_message_sf_err _ cid sendFail _ e2 (hact4 audio _) he2]
          exact handle_raise_err _ cid sendFail e2 e3 [] (hact4 audio _) he3
        exact ⟨⟨e3, by rw [hpr]⟩, fun rest => by simp [ws_loop_sf, hpr]⟩
  · -- (C) the first transcription-result send raises, error send delivered
    intro audio voice denoised t w tw esend hdec hlen hfl hv hve hn hde hapi hw hsfail
      herrok
    subst hdec
    have hpr : process_audio_chunk_sf cfg sendFail s cid (Except.ok audio) =
        (bump_processed
          (bump_total ((get_buffer_content (add_to_buffer s cid audio) cid).2) cid
            (((get_buffer_content (add_to_buffer s cid audio) cid).1.length : ℚ) /
              (SAMPLE_RATE : ℚ))) cid ((denoised.length : ℚ) / (SAMPLE_RATE : ℚ)),
          [Msg.error esend], none) := by
      unfold process_audio_chunk_sf
      simp only [hlen, if_false, hfl, not_true, if_true, hv, hve, hn]
      unfold transcribe_audio_tensor
      simp only [hde, if_false, hapi, hw, List.enum_cons, List.map_cons]
      unfold emit_chunks_sf
      rw [send_message_sf_err _ cid sendFail _ esend (hact4 audio _) (hsfail _)]
      exact handle_raise_ok _ cid sendFail esend [] (hact4 audio _) herrok
    refine ⟨by rw [hpr], ?_⟩
    rw [hpr]
    rw [bump_processed_buffers, bump_total_buffers]
    exact hdrained audio

/-- Witness for C8 (amended): a decode failure on a connected client over
a healthy transport. -/
theorem step_failure_spec_witness :
    is_active (⟨[("c", ())], [], [], []⟩ : ConnState) "c" = true ∧
    (((∀ m, (fun (_ : Msg) => (none : Option String)) m = none) →
      pipeline_step_fails (⟨fun (b : Fragment) => Except.ok b, fun (b : Fragment) => Except.ok b, fun (_ : Fragment) => Except.ok ""⟩ : Collaborators) (⟨[("c", ())], [], [], []⟩ : ConnState) "c" (Except.error "frame decode failed" : Except String Fragment) →
      (∃ e, (process_audio_chunk_sf (⟨fun (b : Fragment) => Except.ok b, fun (b : Fragment) => Except.ok b, fun (_ : Fragment) => Except.ok ""⟩ : Collaborators) (fun (_ : Msg) => (none : Option String))
        (⟨[("c", ())], [], [], []⟩ : ConnState) "c" (Except.error "frame decode failed" : Except String Fragment)).2 =
        ([Msg.error e], none)) ∧
      (∀ audio, (Except.error "frame decode failed" : Except String Fragment) = Except.ok audio →
        lookupKey (process_audio_chunk_sf (⟨fun (b : Fragment) => Except.ok b, fun (b : Fragment) => Except.ok b, fun (_ : Fragment) => Except.ok ""⟩ : Collaborators) (fun (_ : Msg) => (none : Option String))
        (⟨[("c", ())], [], [], []⟩ : ConnState) "c" (Except.error "frame decode failed" : Except String Fragment)).1.audio_buffers "c" =
          some []) ∧
      (∀ rest, ws_loop_sf (⟨fun (b : Fragment) => Except.ok b, fun (b : Fragment) => Except.ok b, fun (_ : Fragment) => Except.ok ""⟩ : Collaborators) (fun (_ : Msg) => (none : Option String))
          (⟨[("c", ())], [], [], []⟩ : ConnState) "c" ((Except.error "frame decode failed" : Except String Fragment) :: rest) =
        ((ws_loop_sf (⟨fun (b : Fragment) => Except.ok b, fun (b : Fragment) => Except.ok b, fun (_ : Fragment) => Except.ok ""⟩ : Collaborators) (fun (_ : Msg) => (none : Option String))
            (process_audio_chunk_sf (⟨fun (b : Fragment) => Except.ok b, fun (b : Fragment) => Except.ok b, fun (_ : Fragment) => Except.ok ""⟩ : Collaborators) (fun (_ : Msg) => (none : Option String))
        (⟨[("c", ())], [], [], []⟩ : ConnState) "c" (Except.error "frame decode failed" : Except String Fragment)).1 "c" rest).1,
          (process_audio_chunk_sf (⟨fun (b : Fragment) => Except.ok b, fun (b : Fragment) => Except.ok b, fun (_ : Fragment) => Except.ok ""⟩ : Collaborators) (fun (_ : Msg) => (none : Option String))
        (⟨[("c", ())], [], [], []⟩ : ConnState) "c" (Except.error "frame decode failed" : Except String Fragment)).2.1 ++
            (ws_loop_sf (⟨fun (b : Fragment) => Except.ok b, fun (b : Fragment) => Except.ok b, fun (_ : Fragment) => Except.ok ""⟩ : Collaborators) (fun (_ : Msg) => (none : Option String))
              (process_audio_chunk_sf (⟨fun (b : Fragment) => Except.ok b, fun (b : Fragment) => Except.ok b, fun (_ : Fragment) => Except.ok ""⟩ : Collaborators) (fun (_ : Msg) => (none : Option String))
        (⟨[("c", ())], [], [], []⟩ : ConnState) "c" (Except.error "frame decode failed" : Except String Fragment)).1 "c" rest).2))) ∧
    ((∀ m, ∃ e2, (fun (_ : Msg) => (none : Option String)) m = some e2) →
      pipeline_step_fails (⟨fun (b : Fragment) => Except.ok b, fun (b : Fragment) => Except.ok b, fun (_ : Fragment) => Except.ok ""⟩ : Collaborators) (⟨[("c", ())], [], [], []⟩ : ConnState) "c" (Except.error "frame decode failed" : Except String Fragment) →
      (∃ e2, (process_audio_chunk_sf (⟨fun (b : Fragment) => Except.ok b, fun (b : Fragment) => Except.ok b, fun (_ : Fragment) => Except.ok ""⟩ : Collaborators) (fun (_ : Msg) => (none : Option String))
        (⟨[("c", ())], [], [], []⟩ : ConnState) "c" (Except.error "frame decode failed" : Except String Fragment)).2 = ([], some e2)) ∧
      (∀ rest, ws_loop_sf (⟨fun (b : Fragment) => Except.ok b, fun (b : Fragment) => Except.ok b, fun (_ : Fragment) => Except.ok ""⟩ : Collaborators) (fun (_ : Msg) => (none : Option String))
          (⟨[("c", ())], [], [], []⟩ : ConnState) "c" ((Except.error "frame decode failed" : Except String Fragment) :: rest) =
        (disconnect (process_audio_chunk_sf (⟨fun (b : Fragment) => Except.ok b, fun (b : Fragment) => Except.ok b, fun (_ : Fragment) => Except.ok ""⟩ : Collaborators) (fun (_ : Msg) => (none : Option String))
        (⟨[("c", ())], [], [], []⟩ : ConnState) "c" (Except.error "frame decode failed" : Except String Fragment)).1 "c", []))) ∧
    (∀ audio voice denoised t w tw esend,
      (Except.error "frame decode failed" : Except String Fragment) = Except.ok audio → ¬audio.length < 100 →
      should_process_buffer (add_to_buffer (⟨[("c", ())], [], [], []⟩ : ConnState) "c" audio) "c" audio = true →
      (⟨fun (b : Fragment) => Except.ok b, fun (b : Fragment) => Except.ok b, fun (_ : Fragment) => Except.ok ""⟩ : Collaborators).vad
        (get_buffer_content (add_to_buffer (⟨[("c", ())], [], [], []⟩ : ConnState) "c" audio) "c").1 = Except.ok voice →
      ¬voice.length = 0 →
      (⟨fun (b : Fragment) => Except.ok b, fun (b : Fragment) => Except.ok b, fun (_ : Fragment) => Except.ok ""⟩ : Collaborators).noise voice = Except.ok denoised →
      ¬denoised.length = 0 →
      (⟨fun (b : Fragment) => Except.ok b, fun (b : Fragment) => Except.ok b, fun (_ : Fragment) => Except.ok ""⟩ : Collaborators).api denoised = Except.ok t →
      pySplit t = w :: tw →
      (∀ fin, (fun (_ : Msg) => (none : Option String)) (Msg.success w fin) = some esend) →
      (fun (_ : Msg) => (none : Option String)) (Msg.error esend) = none →
      (process_audio_chunk_sf (⟨fun (b : Fragment) => Except.ok b, fun (b : Fragment) => Except.ok b, fun (_ : Fragment) => Except.ok ""⟩ : Collaborators) (fun (_ : Msg) => (none : Option String))
        (⟨[("c", ())], [], [], []⟩ : ConnState) "c" (Except.error "frame decode failed" : Except String Fragment)).2 = ([Msg.error esend], none) ∧
      lookupKey (process_audio_chunk_sf (⟨fun (b : Fragment) => Except.ok b, fun (b : Fragment) => Except.ok b, fun (_ : Fragment) => Except.ok ""⟩ : Collaborators) (fun (_ : Msg) => (none : Option String))
        (⟨[("c", ())], [], [], []⟩ : ConnState) "c" (Except.error "frame decode failed" : Except String Fragment)).1.audio_buffers "c" =
        some [])) :=
  ⟨by decide,
    step_failure_spec (⟨fun (b : Fragment) => Except.ok b, fun (b : Fragment) => Except.ok b, fun (_ : Fragment) => Except.ok ""⟩ : Collaborators) (fun (_ : Msg) => (none : Option String))
      (⟨[("c", ())], [], [], []⟩ : ConnState) "c" (Except.error "frame decode failed" : Except String Fragment) (by decide)⟩

/-- C9: for every connection attempt whose presented API key has no
(non-empty) user-id mapping in the credential store, the murmur-server
handler closes the connection with policy-violation code 1008, the
websocket never reaches the accepted state (the handler's missing `return`
makes it call `accept` after `close`, which raises and aborts it), no
session state (`buff`) is created, and no audio frame from that connection
is ever handled. -/
theorem auth_reject_spec (auth : String → Option String) (api_key : String)
    (frames : List Fragment) (h : falsy_uid (auth api_key) = true) :
    (murmur_root auth api_key frames).ws.closeCode = some 1008 ∧
    (murmur_root auth api_key frames).ws.status = WsStatus.closed ∧
    (murmur_root auth api_key frames).sessionCreated = false ∧
    (murmur_root auth api_key frames).framesProcessed = 0 := by
  unfold murmur_root
  simp [h, ws_close, ws_accept]

/-- Witness for C9: a key absent from the credential store. -/
theorem auth_reject_spec_witness :
    falsy_uid ((fun _ => none : String → Option String) "bad-key") = true ∧
    ((murmur_root (fun _ => none) "bad-key" [[1]]).ws.closeCode = some 1008 ∧
    (murmur_root (fun _ => none) "bad-key" [[1]]).ws.status = WsStatus.closed ∧
    (murmur_root (fun _ => none) "bad-key" [[1]]).sessionCreated = false ∧
    (murmur_root (fun _ => none) "bad-key" [[1]]).framesProcessed = 0) :=
  ⟨rfl, auth_reject_spec (fun _ => none) "bad-key" [[1]] rfl⟩

/-- C10: when a flush reaches transcription and the collaborator returns a
text containing no words (e.g. the empty string), the word-streaming
generator yields no chunks, so the backend emits no message at all to the
client for that flush — no success, no final-flagged, no error message —
although `processed_audio_seconds` has already been incremented by the
denoised audio's duration. -/
theorem empty_transcript_no_message (cfg : Collaborators) (s : ConnState) (cid : String)
    (audio voice denoised : Fragment) (t : String)
    (hlen : ¬audio.length < 100)
    (hfl : should_process_buffer (add_to_buffer s cid audio) cid audio = true)
    (hvad : cfg.vad (get_buffer_content (add_to_buffer s cid audio) cid).1 =
      Except.ok voice)
    (hve : ¬voice.length = 0)
    (hn : cfg.noise voice = Except.ok denoised)
    (hde : ¬denoised.length = 0)
    (hapi : cfg.api denoised = Except.ok t)
    (hw : pySplit t = []) :
    (process_audio_chunk cfg s cid (Except.ok audio)).2 = [] ∧
    (∀ m, lookupKey s.audio_metrics cid = some m →
      ∃ m', lookupKey (process_audio_chunk cfg s cid (Except.ok audio)).1.audio_metrics cid =
          some m' ∧
        m'.processed_audio_seconds = m.processed_audio_seconds +
          (denoised.length : ℚ) / (SAMPLE_RATE : ℚ)) := by
  constructor
  · unfold process_audio_chunk
    simp only [hlen, if_false, hfl, not_true, if_true, hvad, hve]
    simp [hn, transcribe_audio_tensor, hde, hapi, hw, emit_chunks]
  · intro m hm
    have hm2 : lookupKey ((get_buffer_content (add_to_buffer s cid audio) cid).2).audio_metrics
        cid = some m := by
      rw [drain_metrics, add_to_buffer_metrics]; exact hm
    have hm3 := bump_total_lookup_self
      ((get_buffer_content (add_to_buffer s cid audio) cid).2) cid
      (((get_buffer_content (add_to_buffer s cid audio) cid).1.length : ℚ) /
        (SAMPLE_RATE : ℚ)) m hm2
    have hm4 := bump_processed_lookup_self _ cid
      ((denoised.length : ℚ) / (SAMPLE_RATE : ℚ)) _ hm3
    unfold process_audio_chunk
    simp only [hlen, if_false, hfl, not_true, if_true, hvad, hve, hn]
    exact ⟨_, hm4, rfl⟩

/-- Witness for C10: a max-cap flush whose transcription text is empty. -/
theorem empty_transcript_no_message_witness :
    ¬(List.replicate 100 (1 : ℚ)).length < 100 ∧
    should_process_buffer
      (add_to_buffer ⟨[("c", ())], [("c", [])], [("c", 79900)], [("c", ⟨0, 0, 0⟩)]⟩ "c"
        (List.replicate 100 1)) "c" (List.replicate 100 1) = true ∧
    (⟨fun _ => Except.ok [1], fun _ => Except.ok [1], fun _ => Except.ok ""⟩ :
        Collaborators).vad
      (get_buffer_content
        (add_to_buffer ⟨[("c", ())], [("c", [])], [("c", 79900)], [("c", ⟨0, 0, 0⟩)]⟩ "c"
          (List.replicate 100 1)) "c").1 = Except.ok [1] ∧
    ¬([(1 : ℚ)].length = 0) ∧
    pySplit "" = [] ∧
    ((process_audio_chunk
        ⟨fun _ => Except.ok [1], fun _ => Except.ok [1], fun _ => Except.ok ""⟩
        ⟨[("c", ())], [("c", [])], [("c", 79900)], [("c", ⟨0, 0, 0⟩)]⟩ "c"
        (Except.ok (List.replicate 100 1))).2 = [] ∧
    (∀ m, lookupKey (⟨[("c", ())], [("c", [])], [("c", 79900)], [("c", ⟨0, 0, 0⟩)]⟩ :
          ConnState).audio_metrics "c" = some m →
      ∃ m', lookupKey (process_audio_chunk
          ⟨fun _ => Except.ok [1], fun _ => Except.ok [1], fun _ => Except.ok ""⟩
          ⟨[("c", ())], [("c", [])], [("c", 79900)], [("c", ⟨0, 0, 0⟩)]⟩ "c"
          (Except.ok (List.replicate 100 1))).1.audio_metrics "c" = some m' ∧
        m'.processed_audio_seconds = m.processed_audio_seconds +
          (([(1 : ℚ)].length : ℚ)) / (SAMPLE_RATE : ℚ))) :=
  ⟨by decide,
    by norm_num [should_process_buffer, get_buffer_duration, add_to_buffer, lookupKey,
      setKey, SAMPLE_RATE, BUFFER_MAX_SECONDS, BUFFER_MIN_SECONDS],
    rfl, by decide, pySplit_empty,
    empty_transcript_no_message
      ⟨fun _ => Except.ok [1], fun _ => Except.ok [1], fun _ => Except.ok ""⟩
      ⟨[("c", ())], [("c", [])], [("c", 79900)], [("c", ⟨0, 0, 0⟩)]⟩ "c"
      (List.replicate 100 1) [1] [1] "" (by decide)
      (by norm_num [should_process_buffer, get_buffer_duration, add_to_buffer, lookupKey,
        setKey, SAMPLE_RATE, BUFFER_MAX_SECONDS, BUFFER_MIN_SECONDS])
      rfl (by decide) rfl (by decide) rfl pySplit_empty⟩

end Murmur

